import Mathlib

/-!
# Wild-Jungle: admission gate, overflow buffer, job coordinator and broker client

A shallow embedding of `SessionManager.js`, `JobCoordinator.js`,
`LavinMQClient.js`, `LavinMQWorkerQueueHandler.js`, `CreditManager.js` and
`db/creditStore.js`.

* Session ids and texts are strings (the data model calls the identifier an
  opaque string), so the JavaScript test `!sessionId` is `sessionId = ""`.
* A JavaScript `Set` of strings is a list in insertion order: `add` appends
  an absent element, `delete` removes the element, `size` is the length.
* A thrown error is the `error` case of `Except`; an `async` function that
  rejects is modelled the same way.
* The outcome of every awaited external call (the broker publish, a
  connection attempt) is a parameter of the function that awaits it.
* Credit balances and amounts are JavaScript numbers that hold integers: an
  integer below `2 ^ 53` in absolute value is itself, a larger one is rounded
  to the nearest double when it is read or computed. The table of the credit
  store is a list of rows keyed by `userID`; a statement on it fails when a
  bound value is a `Date` object or when the row breaks the constraint
  `CHECK (credits >= 0)`.
-/

namespace WildJungle

/-! ## Errors -/

/-- An error object: the `name` of its class and its `message`. -/
structure JsError where
  name : String
  message : String
deriving DecidableEq, Repr

deriving instance DecidableEq for Except

/-- The class `SessionError` of `SessionManager.js`. -/
def SessionError (message : String) : JsError := ⟨"SessionError", message⟩

/-- The class `JobSubmissionError` of `JobCoordinator.js`. -/
def JobSubmissionError (message : String) : JsError := ⟨"JobSubmissionError", message⟩

/-- A plain `new Error(message)`. -/
def PlainError (message : String) : JsError := ⟨"Error", message⟩

/-- A `TypeError` raised by the runtime (property read on `undefined`). -/
def TypeError (message : String) : JsError := ⟨"TypeError", message⟩

/-! ## JavaScript `Set` of strings -/

/-- The method `Set.prototype.add`: an element already present is not added again. -/
def JsSet.add (s : List String) (x : String) : List String :=
  if x ∈ s then s else s ++ [x]

/-- The method `Set.prototype.delete`. -/
def JsSet.delete (s : List String) (x : String) : List String :=
  s.filter (fun y => decide (y ≠ x))

/-- The property `Set.prototype.size`. -/
def JsSet.size (s : List String) : Nat := s.length

/-! ## SessionManager.js -/

/-- The object literal `{ text, sessionId }` built by `submitJobToBroker`, both
as the buffered task and as the published payload. -/
structure Job where
  text : String
  sessionId : String
deriving DecidableEq, Repr

/-- The fields of a `SessionManager` instance. -/
structure SessionManager where
  MAX_ACTIVE_SESSIONS : Nat
  activeSessions : List String
  overflowQueue : List Job
deriving DecidableEq, Repr

/-- The constructor: ceiling 3, no active session, empty queue. -/
def SessionManager.new : SessionManager :=
  { MAX_ACTIVE_SESSIONS := 3, activeSessions := [], overflowQueue := [] }

/-- The method `hasCapacity`: `activeSessions.size < MAX_ACTIVE_SESSIONS`. -/
def SessionManager.hasCapacity (sm : SessionManager) : Bool :=
  decide (JsSet.size sm.activeSessions < sm.MAX_ACTIVE_SESSIONS)

/-- The method `addSession`: throws on a falsy id, else adds it to the set.
The second component is the manager after the call. -/
def SessionManager.addSession (sm : SessionManager) (sessionId : String) :
    Except JsError Unit × SessionManager :=
  if sessionId = "" then
    (.error (SessionError "Session ID must be provided."), sm)
  else
    (.ok (), { sm with activeSessions := JsSet.add sm.activeSessions sessionId })

/-- The method `removeSession`: throws on a falsy id, else deletes it from the
set. The second component is the manager after the call. -/
def SessionManager.removeSession (sm : SessionManager) (sessionId : String) :
    Except JsError Unit × SessionManager :=
  if sessionId = "" then
    (.error (SessionError "Session ID must be provided."), sm)
  else
    (.ok (), { sm with activeSessions := JsSet.delete sm.activeSessions sessionId })

/-- The method `addToQueue` of `SessionManager`: throws on a missing task
(`none` stands for `undefined`), else pushes at the tail. -/
def SessionManager.addToQueue (sm : SessionManager) (task : Option Job) :
    Except JsError SessionManager :=
  match task with
  | none => .error (SessionError "Task must be provided.")
  | some t => .ok { sm with overflowQueue := sm.overflowQueue ++ [t] }

/-- The method `getNextTask`: `overflowQueue.shift()`, the removed head
(`none` for `undefined`) and the manager afterwards. -/
def SessionManager.getNextTask (sm : SessionManager) : Option Job × SessionManager :=
  (sm.overflowQueue.head?, { sm with overflowQueue := sm.overflowQueue.tail })

/-- The method `hasTasksInQueue`. -/
def SessionManager.hasTasksInQueue (sm : SessionManager) : Bool :=
  decide (sm.overflowQueue.length > 0)

/-- The getter `activeSessionCount`. -/
def SessionManager.activeSessionCount (sm : SessionManager) : Nat :=
  JsSet.size sm.activeSessions

/-! ## The overflow buffer used by JobCoordinator

`JobCoordinator` calls `addToQueue`, `getQueueLength`, `peek` and `shift` on the
object it is given as `overflowQueueHandler`. Under the sources `addToQueue`
exists twice (the list push of `SessionManager`, and the worker pool of
`OverflowQueueHandler`), `getQueueLength` once (in `OverflowQueueHandler`), and
`peek` and `shift` in no class. Two embeddings follow. `OverflowBuffer` is a
list with the `peek` and `shift` of the specification, the only buffer on which
a drain cycle gets past `peek`. `OverflowQueueHandler`, further down, is the
class of the sources as it is, and `WiredJobCoordinator` is the coordinator
that holds an instance of it.
-/

/-- Modelled from the spec: the buffer that `peek` and `shift` need, since no
class under the sources offers them: the FIFO queue of the specification
(enqueue at the tail, peek and dequeue at the head, length), held as the list
of its items, oldest first. -/
structure OverflowBuffer where
  items : List Job
deriving DecidableEq, Repr

/-- The method `addToQueue` of the list buffer: the list push that
`SessionManager.js` has under this name. It throws `SessionError` on a missing
task (`none`), else it pushes the task at the tail. -/
def OverflowBuffer.addToQueue (q : OverflowBuffer) (item : Option Job) :
    Except JsError OverflowBuffer :=
  match item with
  | none => .error (SessionError "Task must be provided.")
  | some t => .ok { items := q.items ++ [t] }

/-- The method `getQueueLength` of the list buffer. In `OverflowQueueHandler.js`
it returns `this.queue.size + this.queue.pending`, the number of tasks that are
in the queue; for the list that is the number of its items. -/
def OverflowBuffer.getQueueLength (q : OverflowBuffer) : Nat := q.items.length

/-- Modelled from the spec: `peek` returns the head without removing it
(`none` when the buffer is empty). -/
def OverflowBuffer.peek (q : OverflowBuffer) : Option Job := q.items.head?

/-- Modelled from the spec: `dequeue` removes the head. -/
def OverflowBuffer.shift (q : OverflowBuffer) : OverflowBuffer := { items := q.items.tail }

/-! ## JobCoordinator.js -/

/-- The `status` field of the object returned by `submitJobToBroker`. -/
inductive SubmitStatus where
  | queued
  | submitted
deriving DecidableEq, Repr

/-- The object returned by `submitJobToBroker`. -/
structure SubmitResponse where
  status : SubmitStatus
  message : String
deriving DecidableEq, Repr

/-- The state a `JobCoordinator` works on when its `overflowQueueHandler` is a
list buffer with `peek` and `shift`: its two collaborators, and the payloads
that `sendJobResult` has accepted so far, oldest first. -/
structure JobCoordinator where
  sessionManager : SessionManager
  overflowQueueHandler : OverflowBuffer
  published : List Job
deriving DecidableEq, Repr

/-- A coordinator over a fresh `SessionManager` and an empty buffer. -/
def JobCoordinator.new : JobCoordinator :=
  { sessionManager := SessionManager.new, overflowQueueHandler := { items := [] },
    published := [] }

/-- The method `submitJobToBroker(text, sessionId)`. The parameter
`sendJobResult` gives the outcome of `workerQueueHandler.sendJobResult(payload)`.
Every error raised inside the `try` is replaced by a `JobSubmissionError`;
state changes made before the error stay. -/
def JobCoordinator.submitJobToBroker (sendJobResult : Job → Except JsError Unit)
    (jc : JobCoordinator) (text sessionId : String) :
    Except JsError SubmitResponse × JobCoordinator :=
  if !jc.sessionManager.hasCapacity then
    match jc.overflowQueueHandler.addToQueue (some { text := text, sessionId := sessionId }) with
    | .error _ => (.error (JobSubmissionError "Failed to submit the job to the broker."), jc)
    | .ok q =>
      (.ok { status := .queued,
             message := "Job added to the in-memory queue due to max active sessions limit." },
       { jc with overflowQueueHandler := q })
  else
    match jc.sessionManager.addSession sessionId with
    | (.error _, sm) =>
      (.error (JobSubmissionError "Failed to submit the job to the broker."),
       { jc with sessionManager := sm })
    | (.ok _, sm) =>
      let payload : Job := { text := text, sessionId := sessionId }
      match sendJobResult payload with
      | .error _ =>
        (.error (JobSubmissionError "Failed to submit the job to the broker."),
         { jc with sessionManager := sm })
      | .ok _ =>
        (.ok { status := .submitted, message := "Job successfully submitted to the broker." },
         { jc with sessionManager := sm, published := jc.published ++ [payload] })

/-- The method `processOverflowQueue`: one timer tick. An error thrown by
`submitJobToBroker` is not caught here, so it is the tick's own result. -/
def JobCoordinator.processOverflowQueue (sendJobResult : Job → Except JsError Unit)
    (jc : JobCoordinator) : Except JsError Unit × JobCoordinator :=
  if jc.sessionManager.hasCapacity && decide (jc.overflowQueueHandler.getQueueLength > 0) then
    match jc.overflowQueueHandler.peek with
    | none => (.error (TypeError "Cannot read properties of undefined"), jc)
    | some job =>
      match JobCoordinator.submitJobToBroker sendJobResult jc job.text job.sessionId with
      | (.error e, jc1) => (.error e, jc1)
      | (.ok result, jc1) =>
        if result.status = .submitted then
          (.ok (), { jc1 with overflowQueueHandler := jc1.overflowQueueHandler.shift })
        else
          (.ok (), jc1)
  else
    (.ok (), jc)

/-- One call of `submitJobToBroker` together with what its publish does. -/
structure SubmitCall where
  text : String
  sessionId : String
  publish : Except JsError Unit

/-- The coordinator after a sequence of `submitJobToBroker` calls, one after
the other. -/
def JobCoordinator.submitAll (jc : JobCoordinator) : List SubmitCall → JobCoordinator
  | [] => jc
  | c :: cs =>
    JobCoordinator.submitAll
      (JobCoordinator.submitJobToBroker (fun _ => c.publish) jc c.text c.sessionId).2 cs

/-! ## LavinMQClient.js -/

/-- How one call of `initializeClient` settles: the promise resolves, or it
rejects with an error. -/
inductive AttemptOutcome where
  | resolved
  | rejected (error : JsError)
deriving DecidableEq, Repr

/-- What one call of `reconnect` did: how it settled, how many times it called
`initializeClient`, and the durations passed to `this.delay`, in order. -/
structure ReconnectRun where
  result : Except JsError Unit
  attempts : Nat
  sleeps : List Nat
deriving DecidableEq, Repr

/-- The `while (retries)` loop of `reconnect`, entered with the current values
of `retries` and `delay`; `attempt` is the number of the next call of
`initializeClient` and `initializeClient k` is how the k-th call settles. -/
def LavinMQClient.reconnectLoop (initializeClient : Nat → AttemptOutcome) :
    (retries delay attempt : Nat) → ReconnectRun
  | 0, _, _ => { result := .ok (), attempts := 0, sleeps := [] }
  | retries + 1, delay, attempt =>
    match initializeClient attempt with
    | .resolved => { result := .ok (), attempts := 1, sleeps := [] }
    | .rejected error =>
      let delay := delay * 2
      if retries = 0 then
        { result := .error error, attempts := 1, sleeps := [] }
      else
        let rest := LavinMQClient.reconnectLoop initializeClient retries delay (attempt + 1)
        { result := rest.result, attempts := rest.attempts + 1, sleeps := delay :: rest.sleeps }

/-- The method `reconnect`: `retries = 5`, `delay = 2000`, then the loop. -/
def LavinMQClient.reconnect (initializeClient : Nat → AttemptOutcome) : ReconnectRun :=
  LavinMQClient.reconnectLoop initializeClient 5 2000 1

/-- The fields of the `LavinMQClient` instance (connection and channel are
handles, `none` for `null`), and the number of `reconnect()` calls that have
been started by a listener and have not settled yet. -/
structure LavinMQClient where
  connection : Option Nat
  channel : Option Nat
  reconnectsInFlight : Nat
deriving DecidableEq, Repr

/-- The constructor of `LavinMQClient`. -/
def LavinMQClient.new : LavinMQClient :=
  { connection := none, channel := none, reconnectsInFlight := 0 }

/-- What the broker answers to one call of `initializeClient`. -/
inductive ConnectOutcome where
  | connectError (error : JsError)
  | channelError (connection : Nat) (error : JsError)
  | opened (connection : Nat) (channel : Nat)
deriving DecidableEq, Repr

/-- The method `initializeClient`: `this.connection` is assigned as soon as the
connection is up, `this.channel` once the channel is created. A missing
`CLOUDAMQP_URL` rejects like a failed connect, before any assignment. -/
def LavinMQClient.initializeClient (c : LavinMQClient) (o : ConnectOutcome) :
    Except JsError Unit × LavinMQClient :=
  match o with
  | .connectError e => (.error e, c)
  | .channelError conn e => (.error e, { c with connection := some conn })
  | .opened conn ch => (.ok (), { c with connection := some conn, channel := some ch })

/-- The method `getChannel`. -/
def LavinMQClient.getChannel (c : LavinMQClient) : Except JsError Nat :=
  match c.channel with
  | none => .error (PlainError "Channel is not initialized.")
  | some ch => .ok ch

/-- The listener registered for the close event of the connection and of the
channel: it logs a warning and calls `this.reconnect()` without awaiting it.
No field of the client is assigned. -/
def LavinMQClient.onClose (c : LavinMQClient) : LavinMQClient :=
  { c with reconnectsInFlight := c.reconnectsInFlight + 1 }

/-! ## LavinMQWorkerQueueHandler.js -/

/-- The table `ERR_MSGS`. -/
def ERR_MSGS.CHANNEL_NOT_INIT : String := "LavinMQChannel is not initialized."

/-- The table `ERR_MSGS`. -/
def ERR_MSGS.MISSING_PARAMS : String := "Missing parameters for sending job results."

/-- The table `DEFAULTS`. -/
def DEFAULTS.CONSUME_QUEUE : String := "image_generation_webapp"

/-- The table `DEFAULTS`. -/
def DEFAULTS.SEND_QUEUE : String := "job_results_webapp"

/-- The fields of the `LavinMQWorkerQueueHandler` singleton. -/
structure LavinMQWorkerQueueHandler where
  lavinMQClient : LavinMQClient
  lavinMQChannel : Option Nat
  consumeQueue : String
  sendQueue : String
deriving DecidableEq, Repr

/-- The exported instance `getInstance(DEFAULTS)` before `initialize`. -/
def LavinMQWorkerQueueHandler.getInstance : LavinMQWorkerQueueHandler :=
  { lavinMQClient := LavinMQClient.new, lavinMQChannel := none,
    consumeQueue := DEFAULTS.CONSUME_QUEUE, sendQueue := DEFAULTS.SEND_QUEUE }

/-- The method `initialize`: connect, cache the channel of the client in
`lavinMQChannel`, then declare the two queues (`assertQueues` is how the
declarations settle). -/
def LavinMQWorkerQueueHandler.initialize (h : LavinMQWorkerQueueHandler)
    (o : ConnectOutcome) (assertQueues : Except JsError Unit) :
    Except JsError Unit × LavinMQWorkerQueueHandler :=
  match h.lavinMQClient.initializeClient o with
  | (.error e, c) => (.error e, { h with lavinMQClient := c })
  | (.ok _, c) =>
    match c.getChannel with
    | .error e => (.error e, { h with lavinMQClient := c })
    | .ok ch =>
      let h1 := { h with lavinMQClient := c, lavinMQChannel := some ch }
      match assertQueues with
      | .error e => (.error e, h1)
      | .ok _ => (.ok (), h1)

/-- A close event of the connection or of the channel, seen from the handler:
only the listener of the client runs. -/
def LavinMQWorkerQueueHandler.onClose (h : LavinMQWorkerQueueHandler) :
    LavinMQWorkerQueueHandler :=
  { h with lavinMQClient := h.lavinMQClient.onClose }

/-- One call of `channel.sendToQueue`: the channel handle, the queue name and
the record that is serialised into the message body. -/
structure TransportCall where
  channel : Nat
  queue : String
  body : List (String × String)
deriving DecidableEq, Repr

/-- What one call of `sendJobResult` did: how it settled and the calls of
`sendToQueue` it made. -/
structure SendRun where
  result : Except JsError Unit
  transportCalls : List TransportCall
deriving DecidableEq, Repr

/-- The method `sendJobResult(params)`. `params` is `none` for `undefined`,
else the fields of the object; `sendToQueue` is how the transport settles a
call. -/
def LavinMQWorkerQueueHandler.sendJobResult (h : LavinMQWorkerQueueHandler)
    (sendToQueue : TransportCall → Except JsError Unit)
    (params : Option (List (String × String))) : SendRun :=
  match params with
  | none => { result := .error (PlainError ERR_MSGS.MISSING_PARAMS), transportCalls := [] }
  | some fields =>
    if fields.length = 0 then
      { result := .error (PlainError ERR_MSGS.MISSING_PARAMS), transportCalls := [] }
    else
      match h.lavinMQChannel with
      | none => { result := .error (PlainError ERR_MSGS.CHANNEL_NOT_INIT), transportCalls := [] }
      | some ch =>
        let call : TransportCall := { channel := ch, queue := h.sendQueue, body := fields }
        { result := sendToQueue call, transportCalls := [call] }

/-- The fields of the payload object `{ text, sessionId }`. -/
def Job.fields (j : Job) : List (String × String) :=
  [("text", j.text), ("sessionId", j.sessionId)]

/-- The call `jobCoordinator.submitJobToBroker(text, sessionId, jobID)` that
`submitToBrokerEndpoint` of `index.js` makes: the method declares the two
parameters `text` and `sessionId`, so the third argument is bound to nothing. -/
def JobCoordinator.submitJobToBrokerWithJobID (sendJobResult : Job → Except JsError Unit)
    (jc : JobCoordinator) (text sessionId : String) (_jobID : String) :
    Except JsError SubmitResponse × JobCoordinator :=
  JobCoordinator.submitJobToBroker sendJobResult jc text sessionId

/-! ## OverflowQueueHandler.js and the coordinator that holds one -/

/-- The state of an instance of the class `OverflowQueueHandler`: the items
whose task `() => this.worker(item)` was given to `this.queue.add` and has not
settled, oldest first. The queue is a p-queue; it counts a task in `size` while
the task waits and in `pending` while it runs, so `size + pending` is the
number of these items. The class has no `peek` and no `shift`. -/
structure OverflowQueueHandler where
  tasks : List Job
deriving DecidableEq, Repr

/-- The `async` method `addToQueue(item)` up to its first `await`: a missing
item (`none`) rejects the returned promise, any other item is given to
`this.queue.add`. The first component is the rejection made at once, if any;
otherwise the promise settles later, when the worker does. Nothing is thrown
to the caller. -/
def OverflowQueueHandler.addToQueue (h : OverflowQueueHandler) (item : Option Job) :
    Option JsError × OverflowQueueHandler :=
  match item with
  | none => (some (PlainError "Failed to add task to overflow queue: Missing task data."), h)
  | some t => (none, { tasks := h.tasks ++ [t] })

/-- The method `getQueueLength`: `this.queue.size + this.queue.pending`. -/
def OverflowQueueHandler.getQueueLength (h : OverflowQueueHandler) : Nat := h.tasks.length

/-- The worker of the task of `item` settles (it resolves or rejects), so the
queue no longer counts the task. -/
def OverflowQueueHandler.onTaskSettled (h : OverflowQueueHandler) (item : Job) :
    OverflowQueueHandler :=
  { tasks := h.tasks.erase item }

/-- The state a `JobCoordinator` works on when its `overflowQueueHandler` is an
instance of the class `OverflowQueueHandler`; `published` as in
`JobCoordinator`. -/
structure WiredJobCoordinator where
  sessionManager : SessionManager
  overflowQueueHandler : OverflowQueueHandler
  published : List Job
deriving DecidableEq, Repr

/-- A wired coordinator over a fresh `SessionManager` and a handler whose queue
is empty. -/
def WiredJobCoordinator.new : WiredJobCoordinator :=
  { sessionManager := SessionManager.new, overflowQueueHandler := { tasks := [] },
    published := [] }

/-- The method `submitJobToBroker(text, sessionId)` of `JobCoordinator.js` on a
wired coordinator. The promise returned by `addToQueue` is not awaited, so
neither its rejection nor the outcome of the worker reaches the `catch`. -/
def WiredJobCoordinator.submitJobToBroker (sendJobResult : Job → Except JsError Unit)
    (jc : WiredJobCoordinator) (text sessionId : String) :
    Except JsError SubmitResponse × WiredJobCoordinator :=
  if !jc.sessionManager.hasCapacity then
    let added := jc.overflowQueueHandler.addToQueue (some { text := text, sessionId := sessionId })
    (.ok { status := .queued,
           message := "Job added to the in-memory queue due to max active sessions limit." },
     { jc with overflowQueueHandler := added.2 })
  else
    match jc.sessionManager.addSession sessionId with
    | (.error _, sm) =>
      (.error (JobSubmissionError "Failed to submit the job to the broker."),
       { jc with sessionManager := sm })
    | (.ok _, sm) =>
      let payload : Job := { text := text, sessionId := sessionId }
      match sendJobResult payload with
      | .error _ =>
        (.error (JobSubmissionError "Failed to submit the job to the broker."),
         { jc with sessionManager := sm })
      | .ok _ =>
        (.ok { status := .submitted, message := "Job successfully submitted to the broker." },
         { jc with sessionManager := sm, published := jc.published ++ [payload] })

/-- The method `processOverflowQueue` of `JobCoordinator.js` on a wired
coordinator: past the test, `this.overflowQueueHandler.peek` is `undefined`, and
calling it throws a `TypeError` before anything is submitted. -/
def WiredJobCoordinator.processOverflowQueue (_sendJobResult : Job → Except JsError Unit)
    (jc : WiredJobCoordinator) : Except JsError Unit × WiredJobCoordinator :=
  if jc.sessionManager.hasCapacity && decide (jc.overflowQueueHandler.getQueueLength > 0) then
    (.error (TypeError "this.overflowQueueHandler.peek is not a function"), jc)
  else
    (.ok (), jc)

/-- The worker of the task of `item` settles. -/
def WiredJobCoordinator.onTaskSettled (jc : WiredJobCoordinator) (item : Job) :
    WiredJobCoordinator :=
  { jc with overflowQueueHandler := jc.overflowQueueHandler.onTaskSettled item }

/-- The method `removeSession` of the session manager of a wired coordinator. -/
def WiredJobCoordinator.removeSession (jc : WiredJobCoordinator) (sessionId : String) :
    Except JsError Unit × WiredJobCoordinator :=
  ((jc.sessionManager.removeSession sessionId).1,
   { jc with sessionManager := (jc.sessionManager.removeSession sessionId).2 })

/-- The wired coordinator after a sequence of `submitJobToBroker` calls, one
after the other, no task settling in between. -/
def WiredJobCoordinator.submitAll (jc : WiredJobCoordinator) :
    List SubmitCall → WiredJobCoordinator
  | [] => jc
  | c :: cs =>
    WiredJobCoordinator.submitAll
      (WiredJobCoordinator.submitJobToBroker (fun _ => c.publish) jc c.text c.sessionId).2 cs

/-- The statuses returned by that sequence of calls (`none` for a call that
threw). -/
def WiredJobCoordinator.submitAllStatuses (jc : WiredJobCoordinator) :
    List SubmitCall → List (Option SubmitStatus)
  | [] => []
  | c :: cs =>
    let r := WiredJobCoordinator.submitJobToBroker (fun _ => c.publish) jc c.text c.sessionId
    (match r.1 with
      | .ok resp => some resp.status
      | .error _ => none) :: WiredJobCoordinator.submitAllStatuses r.2 cs

/-! ## Calls of `reconnect` in progress -/

/-- Where one call of `reconnect` stands. -/
inductive ChainStatus where
  | connecting
  | sleeping
  | returned
  | threw (error : JsError)
deriving DecidableEq, Repr

/-- One call of `reconnect`: its locals `retries` and `delay`, where it is
suspended (`connecting` at `await this.initializeClient()`, `sleeping` at
`await this.delay(delay)`) or how it ended, the number of calls of
`initializeClient` it has made and the durations it has passed to `this.delay`. -/
structure ReconnectChain where
  retries : Nat
  delay : Nat
  status : ChainStatus
  attempts : Nat
  sleeps : List Nat
deriving DecidableEq, Repr

/-- The call `this.reconnect()` up to its first `await`: `retries = 5`,
`delay = 2000`, the loop is entered and `initializeClient` is called. -/
def ReconnectChain.start : ReconnectChain :=
  { retries := 5, delay := 2000, status := .connecting, attempts := 1, sleeps := [] }

/-- The awaited `initializeClient` of a chain settles. Resolved: `break`, the
call returns. Rejected: `retries -= 1`, `delay *= 2`, then the error is
rethrown when no retry is left, else `this.delay(delay)` is awaited. -/
def ReconnectChain.onAttemptSettled (c : ReconnectChain) (o : AttemptOutcome) :
    ReconnectChain :=
  match c.status with
  | .connecting =>
    match o with
    | .resolved => { c with status := .returned }
    | .rejected error =>
      let retries := c.retries - 1
      let delay := c.delay * 2
      if retries = 0 then
        { c with retries := retries, delay := delay, status := .threw error }
      else
        { c with retries := retries, delay := delay, status := .sleeping,
                 sleeps := c.sleeps ++ [delay] }
  | _ => c

/-- The timer of a sleeping chain fires: the loop test `while (retries)` is
made and `initializeClient` is called again. -/
def ReconnectChain.onTimer (c : ReconnectChain) : ReconnectChain :=
  match c.status with
  | .sleeping =>
    if c.retries = 0 then { c with status := .returned }
    else { c with status := .connecting, attempts := c.attempts + 1 }
  | _ => c

/-- A chain that is the only one in progress, driven to its end: its k-th call
of `initializeClient` settles as `initializeClient k` says and every timer
fires. `fuel` bounds the number of events. -/
def ReconnectChain.runAlone (initializeClient : Nat → AttemptOutcome) :
    Nat → ReconnectChain → ReconnectChain
  | 0, c => c
  | fuel + 1, c =>
    match c.status with
    | .connecting =>
      ReconnectChain.runAlone initializeClient fuel
        (c.onAttemptSettled (initializeClient c.attempts))
    | .sleeping => ReconnectChain.runAlone initializeClient fuel c.onTimer
    | _ => c

/-- What a chain that has ended did, as a `ReconnectRun`; `none` while it is in
progress. -/
def ReconnectChain.toRun (c : ReconnectChain) : Option ReconnectRun :=
  match c.status with
  | .returned => some { result := .ok (), attempts := c.attempts, sleeps := c.sleeps }
  | .threw error => some { result := .error error, attempts := c.attempts, sleeps := c.sleeps }
  | _ => none

/-- The client together with the calls of `reconnect` that were started, in the
order in which they were started. -/
structure ClientRuntime where
  client : LavinMQClient
  chains : List ReconnectChain
deriving DecidableEq, Repr

/-- The chain at position `i` replaced by `f` of it. -/
def ClientRuntime.updateChain (chains : List ReconnectChain) (i : Nat)
    (f : ReconnectChain → ReconnectChain) : List ReconnectChain :=
  match chains, i with
  | [], _ => []
  | c :: cs, 0 => f c :: cs
  | c :: cs, i + 1 => c :: ClientRuntime.updateChain cs i f

/-- A close event of the connection or of the channel: the listener logs a
warning and calls `this.reconnect()`, whatever calls are in progress. -/
def ClientRuntime.onClose (rt : ClientRuntime) : ClientRuntime :=
  { client := rt.client.onClose, chains := rt.chains ++ [ReconnectChain.start] }

/-- The runtime after `n` close events in a row. -/
def ClientRuntime.onCloseRepeated (rt : ClientRuntime) : Nat → ClientRuntime
  | 0 => rt
  | n + 1 => ClientRuntime.onCloseRepeated rt.onClose n

/-- The `initializeClient` awaited by chain `i` settles as the broker answers:
the fields of the client are assigned as `initializeClient` does, and the chain
goes on. Nothing happens when chain `i` awaits no attempt. -/
def ClientRuntime.onAttemptSettled (rt : ClientRuntime) (i : Nat) (o : ConnectOutcome) :
    ClientRuntime :=
  match rt.chains[i]? with
  | none => rt
  | some chain =>
    if chain.status = .connecting then
      { client := (rt.client.initializeClient o).2,
        chains := ClientRuntime.updateChain rt.chains i (fun c =>
          c.onAttemptSettled
            (match (rt.client.initializeClient o).1 with
              | .ok _ => .resolved
              | .error e => .rejected e)) }
    else rt

/-- The timer of chain `i` fires. -/
def ClientRuntime.onTimer (rt : ClientRuntime) (i : Nat) : ClientRuntime :=
  { rt with chains := ClientRuntime.updateChain rt.chains i ReconnectChain.onTimer }

/-! ## db/creditStore.js -/

/-- The class `DatabaseError` of `creditStore.js`. -/
def DatabaseError (message : String) : JsError := ⟨"DatabaseError", message⟩

/-- The error of the database engine when a row violates the constraint
`CHECK (credits >= 0)` of the table. -/
def SqliteError (message : String) : JsError := ⟨"SqliteError", message⟩

/-- The least power of two `p`, searched upward from the given one, with
`a / p < 2 ^ 53`: the spacing of the JavaScript numbers at the size of `a`. -/
def JsNumber.spacing : Nat → Nat → Nat → Nat
  | 0, p, _ => p
  | fuel + 1, p, a =>
    if a / p < 9007199254740992 then p else JsNumber.spacing fuel (2 * p) a

/-- The JavaScript number (a double) nearest to an integer: the integer itself
below `2 ^ 53` in absolute value, else the nearest multiple of the spacing, a
tie going to the even multiple. Balances are read from the column and computed
as such numbers. -/
def JsNumber.ofInt (n : Int) : Int :=
  let a := n.natAbs
  if a < 9007199254740992 then n
  else
    let p := JsNumber.spacing 1024 1 a
    let q := a / p
    let r := a % p
    let q1 := if 2 * r < p then q else if p < 2 * r then q + 1
      else if q % 2 = 0 then q else q + 1
    if n < 0 then -((q1 * p : Nat) : Int) else ((q1 * p : Nat) : Int)

/-- A value of the field `lastUpdated`: the text of the column, `null`, or a
`Date` object (with its time value). -/
inductive LastUpdated where
  | text (s : String)
  | null
  | date (time : Nat)
deriving DecidableEq, Repr

/-- A row object with the fields `credits` and `lastUpdated`; `credits` is a
JavaScript number that holds an integer. -/
structure UserCredits where
  credits : Int
  lastUpdated : LastUpdated
deriving DecidableEq, Repr

/-- The table `UserCredits` (`userID` is the primary key, `credits` a 64-bit
integer column), and the rows written by `updateUserCredits` so far, oldest
first. -/
structure CreditStore where
  rows : List (String × UserCredits)
  writes : List (String × UserCredits)
deriving DecidableEq, Repr

/-- The method `validateInputs`: `credits` must be a number, and
`isNaN(credits || NaN)` must be false, which it is not for `credits = 0`
because `0 || NaN` is `NaN`. `none` stands for a missing `userCredits`. -/
def CreditStore.validateInputs (userCredits : Option UserCredits) : Except JsError Unit :=
  match userCredits with
  | none => .error (DatabaseError "Invalid credits value: undefined")
  | some uc =>
    if uc.credits = 0 then
      .error (DatabaseError ("Invalid credits value: " ++ toString uc.credits))
    else
      .ok ()

/-- The method `retrieveUserCredits`: the row of `userID` as the driver returns
it, the balance as a JavaScript number; `none` for `undefined`. -/
def CreditStore.retrieveUserCredits (store : CreditStore) (userID : String) :
    Option UserCredits :=
  (store.rows.lookup userID).map
    (fun uc => { uc with credits := JsNumber.ofInt uc.credits })

/-- The method `updateUserCredits` of the store: validate, then
`run(credits, lastUpdated, userID)` on the `UPDATE` statement, and the `INSERT`
when no row was changed. The driver binds numbers, strings and `null`; it
refuses a `Date` object with a `TypeError` before the statement runs. Either
statement fails on the constraint `CHECK (credits >= 0)` of
`createUserCreditsTable`. -/
def CreditStore.updateUserCredits (store : CreditStore) (userID : String)
    (userCredits : UserCredits) : Except JsError Unit × CreditStore :=
  match CreditStore.validateInputs (some userCredits) with
  | .error e => (.error e, store)
  | .ok _ =>
    match userCredits.lastUpdated with
    | .date _ =>
      (.error (TypeError
        "SQLite3 can only bind numbers, strings, bigints, buffers, and null"), store)
    | _ =>
      if userCredits.credits < 0 then
        (.error (SqliteError "CHECK constraint failed: credits >= 0"), store)
      else if (store.rows.lookup userID).isSome then
        (.ok (),
         { rows := store.rows.map (fun r => if r.1 = userID then (r.1, userCredits) else r),
           writes := store.writes ++ [(userID, userCredits)] })
      else
        (.ok (),
         { rows := store.rows ++ [(userID, userCredits)],
           writes := store.writes ++ [(userID, userCredits)] })

/-! ## CreditManager.js -/

/-- The options of `config` read by the constructor (`none` for an absent one). -/
structure CreditManagerConfig where
  DEFAULT_START_CREDITS : Option Int
  RENDER_COST : Option Int
  REFILL_RATE : Option Int
  REFILL_INTERVAL : Option Int
deriving DecidableEq, Repr

/-- The expression `option || fallback` for a numeric option: an absent option
and the number 0 are falsy. -/
def jsOrDefault (option : Option Int) (fallback : Int) : Int :=
  match option with
  | none => fallback
  | some v => if v = 0 then fallback else v

/-- The numeric fields of a `CreditManager` instance. -/
structure CreditManager where
  DEFAULT_START_CREDITS : Int
  renderCost : Int
  refillRate : Int
  refillInterval : Int
deriving DecidableEq, Repr

/-- The constructor of `CreditManager`. -/
def CreditManager.new (config : CreditManagerConfig) : CreditManager :=
  { DEFAULT_START_CREDITS := jsOrDefault config.DEFAULT_START_CREDITS 500,
    renderCost := jsOrDefault config.RENDER_COST 7,
    refillRate := jsOrDefault config.REFILL_RATE 25,
    refillInterval := jsOrDefault config.REFILL_INTERVAL 3600000 }

/-- The empty `config` object, the default of the constructor. -/
def CreditManagerConfig.empty : CreditManagerConfig :=
  { DEFAULT_START_CREDITS := none, RENDER_COST := none, REFILL_RATE := none,
    REFILL_INTERVAL := none }

/-- The method `updateUserCredits` of the manager: the write of the store, then
a log line. -/
def CreditManager.updateUserCredits (_cm : CreditManager) (store : CreditStore)
    (userID : String) (userCredits : UserCredits) : Except JsError Unit × CreditStore :=
  store.updateUserCredits userID userCredits

/-- The method `fetchUserCredits`; `now` is the time value of `new Date()`. A
missing row and a row with `credits === 0` are replaced by the object
`{ credits: DEFAULT_START_CREDITS, lastUpdated: new Date() }`, which is passed
to `updateUserCredits` before it is returned. -/
def CreditManager.fetchUserCredits (cm : CreditManager) (store : CreditStore)
    (userID : String) (now : Nat) : Except JsError UserCredits × CreditStore :=
  let fresh : UserCredits := { credits := cm.DEFAULT_START_CREDITS, lastUpdated := .date now }
  match store.retrieveUserCredits userID with
  | none =>
    match cm.updateUserCredits store userID fresh with
    | (.error e, store1) => (.error e, store1)
    | (.ok _, store1) => (.ok fresh, store1)
  | some userCredits =>
    if userCredits.credits = 0 then
      match cm.updateUserCredits store userID fresh with
      | (.error e, store1) => (.error e, store1)
      | (.ok _, store1) => (.ok fresh, store1)
    else
      (.ok userCredits, store)

/-- The method `deductUserCredits(userID, creditAmount = 1)`; `none` is an
omitted amount. The difference is a JavaScript number. -/
def CreditManager.deductUserCredits (cm : CreditManager) (store : CreditStore)
    (userID : String) (creditAmount : Option Int) (now : Nat) :
    Except JsError Bool × CreditStore :=
  let amount := creditAmount.getD 1
  match cm.fetchUserCredits store userID now with
  | (.error e, store1) => (.error e, store1)
  | (.ok userCredits, store1) =>
    if userCredits.credits ≥ amount then
      let updated : UserCredits :=
        { userCredits with credits := JsNumber.ofInt (userCredits.credits - amount) }
      match cm.updateUserCredits store1 userID updated with
      | (.error e, store2) => (.error e, store2)
      | (.ok _, store2) => (.ok true, store2)
    else
      (.ok false, store1)

/-- The stored balance of `userID`, `none` when there is no row. -/
def CreditStore.balance (store : CreditStore) (userID : String) : Option Int :=
  (store.rows.lookup userID).map (fun uc => uc.credits)

/-- The balance that the claim about `deductUserCredits` calls the fetched
balance: the start credits when the record is missing or its balance is 0, the
stored balance otherwise. -/
def CreditManager.fetchedBalance (cm : CreditManager) (store : CreditStore)
    (userID : String) : Int :=
  match store.balance userID with
  | none => cm.DEFAULT_START_CREDITS
  | some c => if c = 0 then cm.DEFAULT_START_CREDITS else c

/-! ## Theorems -/

theorem JsSet.size_add_le (s : List String) (x : String) :
    JsSet.size (JsSet.add s x) ≤ JsSet.size s + 1 := by
  unfold JsSet.add JsSet.size
  split <;> simp

theorem submitJobToBroker_keeps_ceiling (send : Job → Except JsError Unit)
    (jc : JobCoordinator) (text sessionId : String) :
    (JobCoordinator.submitJobToBroker send jc text sessionId).2.sessionManager.MAX_ACTIVE_SESSIONS
      = jc.sessionManager.MAX_ACTIVE_SESSIONS := by
  unfold JobCoordinator.submitJobToBroker SessionManager.addSession OverflowBuffer.addToQueue
  by_cases hc : jc.sessionManager.hasCapacity = true
  · by_cases hs : sessionId = ""
    · simp [hc, hs]
    · cases hp : send { text := text, sessionId := sessionId } <;> simp [hc, hs, hp]
  · simp [hc]

theorem submitJobToBroker_count_le (send : Job → Except JsError Unit)
    (jc : JobCoordinator) (text sessionId : String)
    (h : jc.sessionManager.activeSessionCount ≤ jc.sessionManager.MAX_ACTIVE_SESSIONS) :
    (JobCoordinator.submitJobToBroker send jc text sessionId).2.sessionManager.activeSessionCount
      ≤ jc.sessionManager.MAX_ACTIVE_SESSIONS := by
  unfold JobCoordinator.submitJobToBroker SessionManager.addSession OverflowBuffer.addToQueue
  by_cases hc : jc.sessionManager.hasCapacity = true
  · have hlt : JsSet.size jc.sessionManager.activeSessions
        < jc.sessionManager.MAX_ACTIVE_SESSIONS := by
      simpa [SessionManager.hasCapacity] using hc
    have hadd := JsSet.size_add_le jc.sessionManager.activeSessions sessionId
    by_cases hs : sessionId = ""
    · simpa [hc, hs] using h
    · cases hp : send { text := text, sessionId := sessionId } <;>
        simp [hc, hs, hp, SessionManager.activeSessionCount] <;> omega
  · simpa [hc] using h

theorem submitAll_count_le (calls : List SubmitCall) :
    ∀ jc : JobCoordinator,
      jc.sessionManager.activeSessionCount ≤ jc.sessionManager.MAX_ACTIVE_SESSIONS →
      (JobCoordinator.submitAll jc calls).sessionManager.activeSessionCount
        ≤ jc.sessionManager.MAX_ACTIVE_SESSIONS := by
  induction calls with
  | nil => intro jc h; simpa [JobCoordinator.submitAll] using h
  | cons c cs ih =>
    intro jc h
    have h1 := submitJobToBroker_count_le (fun _ => c.publish) jc c.text c.sessionId h
    have h2 := submitJobToBroker_keeps_ceiling (fun _ => c.publish) jc c.text c.sessionId
    have h3 := ih (JobCoordinator.submitJobToBroker (fun _ => c.publish) jc c.text c.sessionId).2
      (by rw [h2]; exact h1)
    rw [h2] at h3
    simpa [JobCoordinator.submitAll] using h3

/-- C1: from a fresh SessionManager (empty active set, ceiling 3), after every
finite sequence of submitJobToBroker calls, whatever the texts, the session ids
and the outcome of each publish, activeSessionCount is at most
MAX_ACTIVE_SESSIONS, which is still 3. -/
theorem submitAll_keeps_ceiling (calls : List SubmitCall) :
    ∀ jc : JobCoordinator,
      (JobCoordinator.submitAll jc calls).sessionManager.MAX_ACTIVE_SESSIONS
        = jc.sessionManager.MAX_ACTIVE_SESSIONS := by
  induction calls with
  | nil => intro jc; rfl
  | cons c cs ih =>
    intro jc
    have h2 := submitJobToBroker_keeps_ceiling (fun _ => c.publish) jc c.text c.sessionId
    have h3 := ih (JobCoordinator.submitJobToBroker (fun _ => c.publish) jc c.text c.sessionId).2
    rw [h2] at h3
    simpa [JobCoordinator.submitAll] using h3

theorem C1_active_count_never_exceeds_ceiling (calls : List SubmitCall) :
    (JobCoordinator.submitAll JobCoordinator.new calls).sessionManager.activeSessionCount
        ≤ (JobCoordinator.submitAll JobCoordinator.new calls).sessionManager.MAX_ACTIVE_SESSIONS
      ∧ (JobCoordinator.submitAll JobCoordinator.new calls).sessionManager.MAX_ACTIVE_SESSIONS
        = 3 := by
  have hk := submitAll_keeps_ceiling calls JobCoordinator.new
  have hc := submitAll_count_le calls JobCoordinator.new (by decide)
  rw [hk]
  exact ⟨hc, rfl⟩

/-! ### C2: a failed publish keeps the reservation -/

/-- C2, counterexample: on a fresh coordinator (capacity 3, nothing active) a
submission for session s1 whose publish throws fails with JobSubmissionError,
and activeSessionCount is 1 afterwards although it was 0 before the call. -/
theorem C2_reservation_not_rolled_back_counterexample :
    JobCoordinator.new.sessionManager.hasCapacity = true
      ∧ (JobCoordinator.submitJobToBroker (fun _ => .error (PlainError "Channel closed"))
          JobCoordinator.new "a cat" "s1").1
          = .error (JobSubmissionError "Failed to submit the job to the broker.")
      ∧ JobCoordinator.new.sessionManager.activeSessionCount = 0
      ∧ (JobCoordinator.submitJobToBroker (fun _ => .error (PlainError "Channel closed"))
          JobCoordinator.new "a cat" "s1").2.sessionManager.activeSessionCount = 1 := by
  decide

/-- C2, amended: for every gate state with spare capacity and every non-empty
session id, if the publish throws then submitJobToBroker throws a
JobSubmissionError and the active set afterwards is the set before with the
session id added by addSession (nothing removes it again): activeSessionCount
is unchanged when the id was already active and one more when it was not. The
buffer and the published payloads are unchanged. -/
theorem C2_failed_publish_keeps_reservation (send : Job → Except JsError Unit)
    (jc : JobCoordinator) (text sessionId : String) (e : JsError)
    (hcap : jc.sessionManager.hasCapacity = true) (hid : sessionId ≠ "")
    (hsend : send { text := text, sessionId := sessionId } = .error e) :
    (JobCoordinator.submitJobToBroker send jc text sessionId).1
        = .error (JobSubmissionError "Failed to submit the job to the broker.")
      ∧ (JobCoordinator.submitJobToBroker send jc text sessionId).2.sessionManager.activeSessions
        = JsSet.add jc.sessionManager.activeSessions sessionId
      ∧ (sessionId ∈ jc.sessionManager.activeSessions →
          (JobCoordinator.submitJobToBroker send jc text
              sessionId).2.sessionManager.activeSessionCount
            = jc.sessionManager.activeSessionCount)
      ∧ (sessionId ∉ jc.sessionManager.activeSessions →
          (JobCoordinator.submitJobToBroker send jc text
              sessionId).2.sessionManager.activeSessionCount
            = jc.sessionManager.activeSessionCount + 1)
      ∧ (JobCoordinator.submitJobToBroker send jc text sessionId).2.overflowQueueHandler
        = jc.overflowQueueHandler
      ∧ (JobCoordinator.submitJobToBroker send jc text sessionId).2.published
        = jc.published := by
  unfold JobCoordinator.submitJobToBroker SessionManager.addSession
  simp [hcap, hid, hsend, SessionManager.activeSessionCount, JsSet.add, JsSet.size]
  constructor <;> intro h <;> simp [h]

/-- C2, amended, at a concrete state: one session active, ceiling 3, a failing
publish for the new session s2 leaves two active sessions. -/
theorem C2_failed_publish_keeps_reservation_witness :
    (JobCoordinator.submitJobToBroker (fun _ => .error (PlainError "Channel closed"))
        { sessionManager := { MAX_ACTIVE_SESSIONS := 3, activeSessions := ["s1"],
                              overflowQueue := [] },
          overflowQueueHandler := { items := [] }, published := [] }
        "a dog" "s2").2.sessionManager.activeSessions = ["s1", "s2"] := by
  have h := C2_failed_publish_keeps_reservation (fun _ => .error (PlainError "Channel closed"))
    { sessionManager := { MAX_ACTIVE_SESSIONS := 3, activeSessions := ["s1"],
                          overflowQueue := [] },
      overflowQueueHandler := { items := [] }, published := [] }
    "a dog" "s2" (PlainError "Channel closed") (by decide) (by decide) rfl
  rw [h.2.1]
  decide

/-! ### C3, C4: the reconnect loop -/

theorem reconnectLoop_attempts_le (init : Nat → AttemptOutcome) :
    ∀ retries delay attempt : Nat,
      (LavinMQClient.reconnectLoop init retries delay attempt).attempts ≤ retries := by
  intro retries
  induction retries with
  | zero => intro delay attempt; simp [LavinMQClient.reconnectLoop]
  | succ n ih =>
    intro delay attempt
    unfold LavinMQClient.reconnectLoop
    cases h : init attempt with
    | resolved => simp
    | rejected e =>
      by_cases hn : n = 0
      · simp [hn]
      · have := ih (delay * 2) (attempt + 1)
        simp [hn]
        omega

theorem reconnectLoop_first_success (init : Nat → AttemptOutcome) :
    ∀ m retries delay attempt : Nat, m < retries →
      (∀ j, j < m → init (attempt + j) ≠ .resolved) →
      init (attempt + m) = .resolved →
      LavinMQClient.reconnectLoop init retries delay attempt
        = { result := .ok (), attempts := m + 1,
            sleeps := (List.range m).map (fun j => delay * 2 ^ (j + 1)) } := by
  intro m
  induction m with
  | zero =>
    intro retries delay attempt hlt _ hok
    obtain ⟨n, rfl⟩ : ∃ n, retries = n + 1 := ⟨retries - 1, by omega⟩
    unfold LavinMQClient.reconnectLoop
    simp at hok
    simp [hok]
  | succ m ih =>
    intro retries delay attempt hlt hfail hok
    obtain ⟨n, rfl⟩ : ∃ n, retries = n + 1 := ⟨retries - 1, by omega⟩
    have h0 : init attempt ≠ .resolved := by simpa using hfail 0 (by omega)
    have hn : n ≠ 0 := by omega
    have hrest := ih n (delay * 2) (attempt + 1) (by omega)
      (fun j hj => by
        have := hfail (j + 1) (by omega)
        rwa [show attempt + (j + 1) = attempt + 1 + j by omega] at this)
      (by rwa [show attempt + (m + 1) = attempt + 1 + m by omega] at hok)
    unfold LavinMQClient.reconnectLoop
    cases h : init attempt with
    | resolved => exact absurd h h0
    | rejected e =>
      simp only [hn, if_false, hrest]
      rw [List.range_succ_eq_map]
      simp [List.map_map, Function.comp_def, pow_succ, Nat.mul_assoc, Nat.mul_comm 2]

theorem reconnectLoop_all_fail (init : Nat → AttemptOutcome) :
    ∀ n delay attempt : Nat, ∀ e : JsError,
      (∀ j, j < n → init (attempt + j) ≠ .resolved) →
      init (attempt + n) = .rejected e →
      LavinMQClient.reconnectLoop init (n + 1) delay attempt
        = { result := .error e, attempts := n + 1,
            sleeps := (List.range n).map (fun j => delay * 2 ^ (j + 1)) } := by
  intro n
  induction n with
  | zero =>
    intro delay attempt e _ hlast
    unfold LavinMQClient.reconnectLoop
    simp at hlast
    simp [hlast]
  | succ n ih =>
    intro delay attempt e hfail hlast
    have h0 : init attempt ≠ .resolved := by simpa using hfail 0 (by omega)
    have hrest := ih (delay * 2) (attempt + 1) e
      (fun j hj => by
        have := hfail (j + 1) (by omega)
        rwa [show attempt + (j + 1) = attempt + 1 + j by omega] at this)
      (by rwa [show attempt + (n + 1) = attempt + 1 + n by omega] at hlast)
    unfold LavinMQClient.reconnectLoop
    cases h : init attempt with
    | resolved => exact absurd h h0
    | rejected e1 =>
      simp only [Nat.succ_ne_zero, if_false, hrest]
      rw [List.range_succ_eq_map]
      simp [List.map_map, Function.comp_def, pow_succ, Nat.mul_assoc, Nat.mul_comm 2]

/-- C3: the code evaluated where every attempt fails. reconnect doubles delay
before it sleeps, so the delay slept after the 1st failed attempt is 4000 ms,
then 8000, 16000 and 32000 ms; the 2000, 4000, 8000, 16000 ms of the claim are
not what the code sleeps. -/
theorem C3_reconnect_sleeps_when_every_attempt_fails :
    (LavinMQClient.reconnect (fun _ => .rejected (PlainError "connect ECONNREFUSED"))).sleeps
        = [4000, 8000, 16000, 32000]
      ∧ (LavinMQClient.reconnect (fun _ => .rejected (PlainError "connect ECONNREFUSED"))).sleeps
        ≠ [2000 * 2 ^ (1 - 1), 2000 * 2 ^ (2 - 1), 2000 * 2 ^ (3 - 1), 2000 * 2 ^ (4 - 1)] := by
  decide

/-- C4: for every outcome sequence of initializeClient, reconnect settles after
at most 5 attempts; if attempt k (1 to 5) is the first to succeed it makes
exactly k attempts, sleeps k - 1 times and returns without error; if all 5
attempts fail it makes exactly 5 attempts, sleeps exactly 4 times and fails with
the error of the 5th attempt. -/
theorem C4_reconnect_attempt_budget (init : Nat → AttemptOutcome) :
    (LavinMQClient.reconnect init).attempts ≤ 5
      ∧ (∀ k : Nat, 1 ≤ k → k ≤ 5 →
          (∀ j, 1 ≤ j → j < k → init j ≠ .resolved) → init k = .resolved →
          (LavinMQClient.reconnect init).attempts = k
            ∧ (LavinMQClient.reconnect init).result = .ok ()
            ∧ (LavinMQClient.reconnect init).sleeps.length = k - 1)
      ∧ (∀ e : JsError,
          (∀ j, 1 ≤ j → j < 5 → init j ≠ .resolved) → init 5 = .rejected e →
          (LavinMQClient.reconnect init).attempts = 5
            ∧ (LavinMQClient.reconnect init).sleeps.length = 4
            ∧ (LavinMQClient.reconnect init).result = .error e) := by
  refine ⟨reconnectLoop_attempts_le init 5 2000 1, ?_, ?_⟩
  · intro k hk1 hk5 hfail hok
    have h := reconnectLoop_first_success init (k - 1) 5 2000 1 (by omega)
      (fun j hj => hfail (1 + j) (by omega) (by omega))
      (by rwa [show 1 + (k - 1) = k by omega])
    unfold LavinMQClient.reconnect
    rw [h]
    simp
    omega
  · intro e hfail hlast
    have h := reconnectLoop_all_fail init 4 2000 1 e
      (fun j hj => hfail (1 + j) (by omega) (by omega)) hlast
    unfold LavinMQClient.reconnect
    rw [h]
    simp

/-- C4 at concrete outcome sequences: attempts 1 and 2 fail and attempt 3
succeeds, so reconnect makes 3 attempts and returns; and every attempt fails
with its own error, so reconnect makes 5 attempts, sleeps 4 times and throws
the error of attempt 5. -/
theorem C4_reconnect_attempt_budget_witness :
    ((LavinMQClient.reconnect
        (fun k => if k < 3 then .rejected (PlainError "down") else .resolved)).attempts = 3
      ∧ (LavinMQClient.reconnect
        (fun k => if k < 3 then .rejected (PlainError "down") else .resolved)).result = .ok ()
      ∧ (LavinMQClient.reconnect
        (fun k => if k < 3 then .rejected (PlainError "down") else .resolved)).sleeps.length
          = 3 - 1)
      ∧ ((LavinMQClient.reconnect
        (fun k => .rejected (PlainError (toString k)))).attempts = 5
      ∧ (LavinMQClient.reconnect
        (fun k => .rejected (PlainError (toString k)))).sleeps.length = 4
      ∧ (LavinMQClient.reconnect
        (fun k => .rejected (PlainError (toString k)))).result
          = .error (PlainError (toString 5))) :=
  ⟨(C4_reconnect_attempt_budget
      (fun k => if k < 3 then .rejected (PlainError "down") else .resolved)).2.1 3
      (by decide) (by decide)
      (fun j _ hj => by simp [hj]) (by simp),
   (C4_reconnect_attempt_budget (fun k => .rejected (PlainError (toString k)))).2.2
      (PlainError (toString 5)) (fun j _ _ => by simp) rfl⟩

/-! ### C6, C7: one drain cycle -/

theorem processOverflowQueue_head_dispatched (send : Job → Except JsError Unit)
    (jc : JobCoordinator) (h : Job) (rest : List Job)
    (hcap : jc.sessionManager.hasCapacity = true)
    (hbuf : jc.overflowQueueHandler.items = h :: rest)
    (hid : h.sessionId ≠ "") (hsend : send h = .ok ()) :
    JobCoordinator.processOverflowQueue send jc
      = (.ok (),
         { sessionManager :=
             { jc.sessionManager with
               activeSessions := JsSet.add jc.sessionManager.activeSessions h.sessionId },
           overflowQueueHandler := { items := rest },
           published := jc.published ++ [h] }) := by
  cases h with
  | mk text sessionId =>
    simp only at hid hsend
    simp [JobCoordinator.processOverflowQueue, JobCoordinator.submitJobToBroker,
      SessionManager.addSession, OverflowBuffer.getQueueLength, OverflowBuffer.peek,
      OverflowBuffer.shift, hcap, hbuf, hid, hsend]

theorem processOverflowQueue_head_failed (send : Job → Except JsError Unit)
    (jc : JobCoordinator) (h : Job) (rest : List Job)
    (hcap : jc.sessionManager.hasCapacity = true)
    (hbuf : jc.overflowQueueHandler.items = h :: rest)
    (hfail : h.sessionId = "" ∨ ∃ e, send h = .error e) :
    (JobCoordinator.processOverflowQueue send jc).1
        = .error (JobSubmissionError "Failed to submit the job to the broker.")
      ∧ (JobCoordinator.processOverflowQueue send jc).2.overflowQueueHandler.items
        = h :: rest := by
  cases h with
  | mk text sessionId =>
    simp only at hfail
    by_cases hid : sessionId = ""
    · simp [JobCoordinator.processOverflowQueue, JobCoordinator.submitJobToBroker,
        SessionManager.addSession, OverflowBuffer.getQueueLength, OverflowBuffer.peek,
        hcap, hbuf, hid]
    · rcases hfail with h0 | ⟨e, he⟩
      · exact absurd h0 hid
      · simp [JobCoordinator.processOverflowQueue, JobCoordinator.submitJobToBroker,
          SessionManager.addSession, OverflowBuffer.getQueueLength, OverflowBuffer.peek,
          hcap, hbuf, hid, he]

/-- C6: for every buffer h :: rest and gate with spare capacity, one
processOverflowQueue cycle whose dispatch of h succeeds (h has a session id and
its publish succeeds) completes and leaves the buffer equal to rest; one whose
dispatch of h fails (no session id, or the publish throws) leaves the buffer
equal to h :: rest. -/
theorem C6_drain_cycle_buffer (send : Job → Except JsError Unit)
    (jc : JobCoordinator) (h : Job) (rest : List Job)
    (hcap : jc.sessionManager.hasCapacity = true)
    (hbuf : jc.overflowQueueHandler.items = h :: rest) :
    (h.sessionId ≠ "" → send h = .ok () →
        (JobCoordinator.processOverflowQueue send jc).1 = .ok ()
          ∧ (JobCoordinator.processOverflowQueue send jc).2.overflowQueueHandler.items = rest
          ∧ (JobCoordinator.processOverflowQueue send jc).2.published = jc.published ++ [h])
      ∧ ((h.sessionId = "" ∨ ∃ e, send h = .error e) →
        (JobCoordinator.processOverflowQueue send jc).2.overflowQueueHandler.items
          = h :: rest
          ∧ (JobCoordinator.processOverflowQueue send jc).2.published = jc.published) := by
  constructor
  · intro hid hsend
    rw [processOverflowQueue_head_dispatched send jc h rest hcap hbuf hid hsend]
    simp
  · intro hfail
    refine ⟨(processOverflowQueue_head_failed send jc h rest hcap hbuf hfail).2, ?_⟩
    cases h with
    | mk text sessionId =>
      simp only at hfail
      by_cases hid : sessionId = ""
      · simp [JobCoordinator.processOverflowQueue, JobCoordinator.submitJobToBroker,
          SessionManager.addSession, OverflowBuffer.getQueueLength, OverflowBuffer.peek,
          hcap, hbuf, hid]
      · rcases hfail with h0 | ⟨e, he⟩
        · exact absurd h0 hid
        · simp [JobCoordinator.processOverflowQueue, JobCoordinator.submitJobToBroker,
            SessionManager.addSession, OverflowBuffer.getQueueLength, OverflowBuffer.peek,
            hcap, hbuf, hid, he]

/-- C6 at a concrete state: nothing active, buffer A, B. A cycle whose publish
succeeds leaves B; a cycle whose publish throws leaves A, B. -/
theorem C6_drain_cycle_buffer_witness :
    (JobCoordinator.processOverflowQueue (fun _ => .ok ())
        { sessionManager := SessionManager.new,
          overflowQueueHandler := { items := [⟨"A", "s1"⟩, ⟨"B", "s2"⟩] },
          published := [] }).2.overflowQueueHandler.items = [⟨"B", "s2"⟩]
      ∧ (JobCoordinator.processOverflowQueue (fun _ => .error (PlainError "Channel closed"))
        { sessionManager := SessionManager.new,
          overflowQueueHandler := { items := [⟨"A", "s1"⟩, ⟨"B", "s2"⟩] },
          published := [] }).2.overflowQueueHandler.items = [⟨"A", "s1"⟩, ⟨"B", "s2"⟩] :=
  ⟨((C6_drain_cycle_buffer (fun _ => .ok ())
      { sessionManager := SessionManager.new,
        overflowQueueHandler := { items := [⟨"A", "s1"⟩, ⟨"B", "s2"⟩] },
        published := [] } ⟨"A", "s1"⟩ [⟨"B", "s2"⟩] (by decide) rfl).1
      (by decide) rfl).2.1,
   ((C6_drain_cycle_buffer (fun _ => .error (PlainError "Channel closed"))
      { sessionManager := SessionManager.new,
        overflowQueueHandler := { items := [⟨"A", "s1"⟩, ⟨"B", "s2"⟩] },
        published := [] } ⟨"A", "s1"⟩ [⟨"B", "s2"⟩] (by decide) rfl).2
      (Or.inr ⟨_, rfl⟩)).1⟩

/-- C7, counterexample: nothing active (ceiling 3), buffer A, B and every
publish succeeding. After one processOverflowQueue cycle the cycle has returned,
only A was promoted: hasCapacity() is still true and the buffer length is 1. -/
theorem C7_drain_cycle_promotes_one_counterexample :
    (JobCoordinator.processOverflowQueue (fun _ => .ok ())
        { sessionManager := SessionManager.new,
          overflowQueueHandler := { items := [⟨"A", "s1"⟩, ⟨"B", "s2"⟩] },
          published := [] }).1 = .ok ()
      ∧ (JobCoordinator.processOverflowQueue (fun _ => .ok ())
        { sessionManager := SessionManager.new,
          overflowQueueHandler := { items := [⟨"A", "s1"⟩, ⟨"B", "s2"⟩] },
          published := [] }).2.sessionManager.hasCapacity = true
      ∧ (JobCoordinator.processOverflowQueue (fun _ => .ok ())
        { sessionManager := SessionManager.new,
          overflowQueueHandler := { items := [⟨"A", "s1"⟩, ⟨"B", "s2"⟩] },
          published := [] }).2.overflowQueueHandler.getQueueLength = 1 := by
  decide

/-- C7, amended: one drain cycle promotes at most one buffered submission. For
every starting state in which every publish succeeds, after the cycle returns
either the gate had no capacity or the buffer was empty before the cycle and
nothing has changed, or exactly the head of the buffer has been admitted,
published and removed, so the buffer is one shorter. -/
theorem C7_drain_cycle_promotes_at_most_one (send : Job → Except JsError Unit)
    (jc : JobCoordinator) (hsend : ∀ j, send j = .ok ())
    (hret : (JobCoordinator.processOverflowQueue send jc).1 = .ok ()) :
    ((jc.sessionManager.hasCapacity = false ∨ jc.overflowQueueHandler.getQueueLength = 0)
        ∧ (JobCoordinator.processOverflowQueue send jc).2 = jc)
      ∨ (∃ h rest, jc.sessionManager.hasCapacity = true
        ∧ jc.overflowQueueHandler.items = h :: rest
        ∧ (JobCoordinator.processOverflowQueue send jc).2.overflowQueueHandler.items = rest
        ∧ (JobCoordinator.processOverflowQueue send jc).2.published = jc.published ++ [h]
        ∧ (JobCoordinator.processOverflowQueue send jc).2.sessionManager.activeSessions
          = JsSet.add jc.sessionManager.activeSessions h.sessionId
        ∧ (JobCoordinator.processOverflowQueue send jc).2.overflowQueueHandler.getQueueLength + 1
          = jc.overflowQueueHandler.getQueueLength) := by
  by_cases hcap : jc.sessionManager.hasCapacity = true
  · cases hbuf : jc.overflowQueueHandler.items with
    | nil =>
      left
      refine ⟨Or.inr (by simp [OverflowBuffer.getQueueLength, hbuf]), ?_⟩
      simp [JobCoordinator.processOverflowQueue, OverflowBuffer.getQueueLength, hbuf]
    | cons h rest =>
      right
      by_cases hid : h.sessionId = ""
      · have hf := (processOverflowQueue_head_failed send jc h rest hcap hbuf (Or.inl hid)).1
        rw [hf] at hret
        exact absurd hret (by decide)
      · refine ⟨h, rest, hcap, rfl, ?_⟩
        rw [processOverflowQueue_head_dispatched send jc h rest hcap hbuf hid (hsend h)]
        simp [OverflowBuffer.getQueueLength, hbuf]
  · left
    have hfalse : jc.sessionManager.hasCapacity = false := by simpa using hcap
    refine ⟨Or.inl hfalse, ?_⟩
    simp [JobCoordinator.processOverflowQueue, hfalse]

/-- C7, amended, at a concrete state: nothing active, buffer A, B, every publish
succeeding. The cycle returns and the state was not left unchanged, so it is the
second case: exactly one submission was promoted. -/
theorem C7_drain_cycle_promotes_at_most_one_witness :
    ∃ h rest,
      (⟨[⟨"A", "s1"⟩, ⟨"B", "s2"⟩]⟩ : OverflowBuffer).items = h :: rest
        ∧ (JobCoordinator.processOverflowQueue (fun _ => .ok ())
            { sessionManager := SessionManager.new,
              overflowQueueHandler := { items := [⟨"A", "s1"⟩, ⟨"B", "s2"⟩] },
              published := [] }).2.overflowQueueHandler.items = rest
        ∧ (JobCoordinator.processOverflowQueue (fun _ => .ok ())
            { sessionManager := SessionManager.new,
              overflowQueueHandler := { items := [⟨"A", "s1"⟩, ⟨"B", "s2"⟩] },
              published := [] }).2.published = [] ++ [h] := by
  rcases C7_drain_cycle_promotes_at_most_one (fun _ => .ok ())
      { sessionManager := SessionManager.new,
        overflowQueueHandler := { items := [⟨"A", "s1"⟩, ⟨"B", "s2"⟩] },
        published := [] } (fun _ => rfl) (by decide) with hnone | ⟨h, rest, _, hb, hr, hp, _, _⟩
  · exact absurd hnone.1 (by decide)
  · exact ⟨h, rest, hb, hr, hp⟩

/-! ### C8, C9: the admission gate -/

theorem JsSet.mem_add (s : List String) (x y : String) :
    y ∈ JsSet.add s x ↔ y = x ∨ y ∈ s := by
  unfold JsSet.add
  by_cases h : x ∈ s
  · simp only [h, if_true]
    constructor
    · exact Or.inr
    · rintro (rfl | h1)
      · exact h
      · exact h1
  · simp only [h, if_false, List.mem_append, List.mem_singleton]
    exact Or.comm

theorem JsSet.mem_delete (s : List String) (x y : String) :
    y ∈ JsSet.delete s x ↔ y ∈ s ∧ y ≠ x := by
  simp [JsSet.delete]

theorem JsSet.delete_of_not_mem (s : List String) (x : String) (h : x ∉ s) :
    JsSet.delete s x = s := by
  unfold JsSet.delete
  rw [List.filter_eq_self]
  intro a ha
  have : a ≠ x := fun hax => h (hax ▸ ha)
  simpa using this

theorem JsSet.delete_delete (s : List String) (x : String) :
    JsSet.delete (JsSet.delete s x) x = JsSet.delete s x :=
  JsSet.delete_of_not_mem _ _ (fun h => ((JsSet.mem_delete s x x).1 h).2 rfl)

/-- C8: addSession(sessionId) fails if and only if sessionId is empty, and then
it throws SessionError and leaves the manager unchanged; for every non-empty
sessionId it returns, the active set afterwards has exactly the previous
members and sessionId, and when sessionId was already active the manager is
unchanged. -/
theorem C8_addSession (sm : SessionManager) (sessionId : String) :
    ((∃ e, (sm.addSession sessionId).1 = .error e) ↔ sessionId = "")
      ∧ (sessionId = "" →
          sm.addSession sessionId = (.error (SessionError "Session ID must be provided."), sm))
      ∧ (sessionId ≠ "" →
          (sm.addSession sessionId).1 = .ok ()
            ∧ (∀ x, x ∈ (sm.addSession sessionId).2.activeSessions
                ↔ x = sessionId ∨ x ∈ sm.activeSessions)
            ∧ (sm.addSession sessionId).2.MAX_ACTIVE_SESSIONS = sm.MAX_ACTIVE_SESSIONS
            ∧ (sm.addSession sessionId).2.overflowQueue = sm.overflowQueue)
      ∧ (sessionId ≠ "" → sessionId ∈ sm.activeSessions →
          sm.addSession sessionId = (.ok (), sm)) := by
  by_cases hid : sessionId = ""
  · simp [SessionManager.addSession, hid]
  · refine ⟨?_, ?_, ?_, ?_⟩
    · simp [SessionManager.addSession, hid]
    · intro h; exact absurd h hid
    · intro _
      simp [SessionManager.addSession, hid, JsSet.mem_add]
    · intro _ hmem
      simp [SessionManager.addSession, hid, JsSet.add, hmem]

/-- C8 at concrete inputs: the empty id is rejected and the manager with s1
active is unchanged; re-admitting s1 returns and changes nothing. -/
theorem C8_addSession_witness :
    SessionManager.addSession
        { MAX_ACTIVE_SESSIONS := 3, activeSessions := ["s1"], overflowQueue := [] } ""
        = (.error (SessionError "Session ID must be provided."),
           { MAX_ACTIVE_SESSIONS := 3, activeSessions := ["s1"], overflowQueue := [] })
      ∧ SessionManager.addSession
        { MAX_ACTIVE_SESSIONS := 3, activeSessions := ["s1"], overflowQueue := [] } "s1"
        = (.ok (), { MAX_ACTIVE_SESSIONS := 3, activeSessions := ["s1"], overflowQueue := [] }) :=
  ⟨(C8_addSession { MAX_ACTIVE_SESSIONS := 3, activeSessions := ["s1"], overflowQueue := [] }
      "").2.1 rfl,
   (C8_addSession { MAX_ACTIVE_SESSIONS := 3, activeSessions := ["s1"], overflowQueue := [] }
      "s1").2.2.2 (by decide) (by decide)⟩

/-- C9, counterexample: removeSession with the empty session id throws
SessionError, on a fresh manager as on any other. -/
theorem C9_removeSession_empty_id_counterexample :
    (SessionManager.removeSession SessionManager.new "").1
      = .error (SessionError "Session ID must be provided.") := by
  decide

/-- C9, amended: for every gate state and every non-empty session id,
removeSession(id) returns without error, the active set afterwards has exactly
the previous members other than id, the manager is unchanged when id was absent,
and a second call with the same id returns and leaves the manager, so the
active set and activeSessionCount, exactly as after the first call. For the
empty id it throws SessionError and leaves the manager unchanged. -/
theorem C9_removeSession (sm : SessionManager) (sessionId : String) :
    (sessionId ≠ "" →
        (sm.removeSession sessionId).1 = .ok ()
          ∧ (∀ x, x ∈ (sm.removeSession sessionId).2.activeSessions
              ↔ x ∈ sm.activeSessions ∧ x ≠ sessionId)
          ∧ (sessionId ∉ sm.activeSessions → (sm.removeSession sessionId).2 = sm)
          ∧ (sm.removeSession sessionId).2.removeSession sessionId
              = (.ok (), (sm.removeSession sessionId).2)
          ∧ ((sm.removeSession sessionId).2.removeSession sessionId).2.activeSessionCount
              = (sm.removeSession sessionId).2.activeSessionCount)
      ∧ (sessionId = "" →
        sm.removeSession sessionId
          = (.error (SessionError "Session ID must be provided."), sm)) := by
  by_cases hid : sessionId = ""
  · simp [SessionManager.removeSession, hid]
  · refine ⟨fun _ => ⟨?_, ?_, ?_, ?_, ?_⟩, fun h => absurd h hid⟩
    · simp [SessionManager.removeSession, hid]
    · intro x
      simp [SessionManager.removeSession, hid, JsSet.mem_delete]
    · intro hmem
      simp [SessionManager.removeSession, hid, JsSet.delete_of_not_mem _ _ hmem]
    · simp [SessionManager.removeSession, hid, JsSet.delete_delete]
    · simp [SessionManager.removeSession, hid, JsSet.delete_delete]

/-- C9, amended, at a concrete state: with s1 and s2 active, removing s1 leaves
s2, and removing s1 again returns and still leaves s2. -/
theorem C9_removeSession_witness :
    (SessionManager.removeSession
        { MAX_ACTIVE_SESSIONS := 3, activeSessions := ["s1", "s2"], overflowQueue := [] }
        "s1").1 = .ok ()
      ∧ SessionManager.removeSession
          (SessionManager.removeSession
            { MAX_ACTIVE_SESSIONS := 3, activeSessions := ["s1", "s2"], overflowQueue := [] }
            "s1").2 "s1"
        = (.ok (),
           (SessionManager.removeSession
            { MAX_ACTIVE_SESSIONS := 3, activeSessions := ["s1", "s2"], overflowQueue := [] }
            "s1").2) :=
  ⟨((C9_removeSession
      { MAX_ACTIVE_SESSIONS := 3, activeSessions := ["s1", "s2"], overflowQueue := [] }
      "s1").1 (by decide)).1,
   ((C9_removeSession
      { MAX_ACTIVE_SESSIONS := 3, activeSessions := ["s1", "s2"], overflowQueue := [] }
      "s1").1 (by decide)).2.2.2.1⟩

/-! ### C10: publishing and the state of the connection -/

/-- C10, counterexample: the handler is initialised on connection 7 and channel
9, then a close event arrives and its listener starts a reconnect that has not
settled. The cached channel is still set, so sendJobResult hands the payload to
sendToQueue on channel 9, and the error of the call is the one the transport
throws, not the channel-not-initialised error of the handler. -/
theorem C10_publish_after_close_reaches_transport_counterexample :
    ( LavinMQWorkerQueueHandler.initialize LavinMQWorkerQueueHandler.getInstance
        (.opened 7 9) (.ok ())).1 = .ok ()
      ∧ ( LavinMQWorkerQueueHandler.initialize LavinMQWorkerQueueHandler.getInstance
          (.opened 7 9) (.ok ())).2.onClose.lavinMQClient.reconnectsInFlight = 1
      ∧ LavinMQWorkerQueueHandler.sendJobResult
          ( LavinMQWorkerQueueHandler.initialize LavinMQWorkerQueueHandler.getInstance
            (.opened 7 9) (.ok ())).2.onClose
          (fun _ => .error (PlainError "Channel closed"))
          (some (Job.fields { text := "a cat", sessionId := "s1" }))
        = { result := .error (PlainError "Channel closed"),
            transportCalls :=
              [{ channel := 9, queue := "job_results_webapp",
                 body := [("text", "a cat"), ("sessionId", "s1")] }] } := by
  decide

/-- C10, amended: for non-empty params, sendJobResult fails with the
channel-not-initialised error, without handing the payload to the transport,
exactly when the cached channel lavinMQChannel of the handler is unset, which is
the case before initialize. A close event leaves lavinMQChannel as it is, and
whenever it is set sendJobResult makes one sendToQueue call on that channel with
the payload and settles as that call does. -/
theorem C10_sendJobResult_guard (h : LavinMQWorkerQueueHandler)
    (sendToQueue : TransportCall → Except JsError Unit) (fields : List (String × String))
    (hne : fields ≠ []) :
    (h.lavinMQChannel = none →
        h.sendJobResult sendToQueue (some fields)
          = { result := .error (PlainError ERR_MSGS.CHANNEL_NOT_INIT), transportCalls := [] })
      ∧ (∀ ch, h.lavinMQChannel = some ch →
        h.sendJobResult sendToQueue (some fields)
          = { result := sendToQueue { channel := ch, queue := h.sendQueue, body := fields },
              transportCalls := [{ channel := ch, queue := h.sendQueue, body := fields }] })
      ∧ LavinMQWorkerQueueHandler.getInstance.sendJobResult sendToQueue (some fields)
          = { result := .error (PlainError ERR_MSGS.CHANNEL_NOT_INIT), transportCalls := [] }
      ∧ h.onClose.lavinMQChannel = h.lavinMQChannel
      ∧ h.onClose.sendJobResult sendToQueue (some fields)
          = h.sendJobResult sendToQueue (some fields) := by
  have hlen : fields.length ≠ 0 := by
    cases fields with
    | nil => exact absurd rfl hne
    | cons a l => simp
  refine ⟨?_, ?_, ?_, rfl, rfl⟩
  · intro hnone
    simp [LavinMQWorkerQueueHandler.sendJobResult, hlen, hnone]
  · intro ch hsome
    simp [LavinMQWorkerQueueHandler.sendJobResult, hlen, hsome]
  · simp [LavinMQWorkerQueueHandler.sendJobResult, hlen,
      LavinMQWorkerQueueHandler.getInstance]

/-- C10, amended, at a concrete payload: before initialize the publish of the
payload of session s1 fails with the channel-not-initialised error and makes no
transport call, even over a transport that would accept it. -/
theorem C10_sendJobResult_guard_witness :
    LavinMQWorkerQueueHandler.getInstance.sendJobResult (fun _ => .ok ())
        (some (Job.fields { text := "a cat", sessionId := "s1" }))
      = { result := .error (PlainError "LavinMQChannel is not initialized."),
          transportCalls := [] } :=
  (C10_sendJobResult_guard LavinMQWorkerQueueHandler.getInstance (fun _ => .ok ())
    (Job.fields { text := "a cat", sessionId := "s1" }) (by decide)).2.2.1

/-! ### C12: what is published -/

/-- C12: the code evaluated at a call that supplies a jobID. On a fresh
coordinator with a publish that succeeds, submitJobToBroker called with text,
session id s1 and jobID job-42 publishes the record with the two fields text
and sessionId only; the jobID is in no field of the outbound record. -/
theorem C12_jobID_not_in_outbound_record :
    (JobCoordinator.submitJobToBrokerWithJobID (fun _ => .ok ()) JobCoordinator.new
        "a cat" "s1" "job-42").1
        = .ok { status := .submitted, message := "Job successfully submitted to the broker." }
      ∧ ((JobCoordinator.submitJobToBrokerWithJobID (fun _ => .ok ()) JobCoordinator.new
          "a cat" "s1" "job-42").2.published.map Job.fields)
        = [[("text", "a cat"), ("sessionId", "s1")]]
      ∧ (∀ record ∈ (JobCoordinator.submitJobToBrokerWithJobID (fun _ => .ok ())
            JobCoordinator.new "a cat" "s1" "job-42").2.published.map Job.fields,
          List.lookup "jobID" record = none
            ∧ ∀ field ∈ record, field.2 ≠ "job-42") := by
  decide

/-! ### C13: a failed dispatch inside a drain cycle -/

/-- C13, counterexample: nothing active, buffer holding A, and a publish that
throws. processOverflowQueue does not complete: it fails with the
JobSubmissionError thrown by submitJobToBroker. -/
theorem C13_drain_cycle_propagates_error_counterexample :
    (JobCoordinator.processOverflowQueue (fun _ => .error (PlainError "Channel closed"))
        { sessionManager := SessionManager.new,
          overflowQueueHandler := { items := [⟨"A", "s1"⟩] },
          published := [] }).1
      = .error (JobSubmissionError "Failed to submit the job to the broker.") := by
  decide

/-- C13, amended: for every state with capacity and a buffer h :: rest, if the
dispatch attempted inside processOverflowQueue throws (the publish throws, or h
has no session id), processOverflowQueue has no catch of its own and fails with
that JobSubmissionError; the head is left in the buffer for the next tick and
nothing is published. -/
theorem C13_drain_cycle_failure (send : Job → Except JsError Unit)
    (jc : JobCoordinator) (h : Job) (rest : List Job)
    (hcap : jc.sessionManager.hasCapacity = true)
    (hbuf : jc.overflowQueueHandler.items = h :: rest)
    (hfail : h.sessionId = "" ∨ ∃ e, send h = .error e) :
    (JobCoordinator.submitJobToBroker send jc h.text h.sessionId).1
        = .error (JobSubmissionError "Failed to submit the job to the broker.")
      ∧ (JobCoordinator.processOverflowQueue send jc).1
        = .error (JobSubmissionError "Failed to submit the job to the broker.")
      ∧ (JobCoordinator.processOverflowQueue send jc).2.overflowQueueHandler.items
        = h :: rest := by
  have hf := processOverflowQueue_head_failed send jc h rest hcap hbuf hfail
  refine ⟨?_, hf.1, hf.2⟩
  cases h with
  | mk text sessionId =>
    simp only at hfail
    by_cases hid : sessionId = ""
    · simp [JobCoordinator.submitJobToBroker, SessionManager.addSession, hcap, hid]
    · rcases hfail with h0 | ⟨e, he⟩
      · exact absurd h0 hid
      · simp [JobCoordinator.submitJobToBroker, SessionManager.addSession, hcap, hid, he]

/-- C13, amended, at a concrete state: nothing active, buffer A, B and a publish
that throws. The cycle fails and the buffer is still A, B. -/
theorem C13_drain_cycle_failure_witness :
    (JobCoordinator.processOverflowQueue (fun _ => .error (PlainError "Channel closed"))
        { sessionManager := SessionManager.new,
          overflowQueueHandler := { items := [⟨"A", "s1"⟩, ⟨"B", "s2"⟩] },
          published := [] }).1
        = .error (JobSubmissionError "Failed to submit the job to the broker.")
      ∧ (JobCoordinator.processOverflowQueue (fun _ => .error (PlainError "Channel closed"))
        { sessionManager := SessionManager.new,
          overflowQueueHandler := { items := [⟨"A", "s1"⟩, ⟨"B", "s2"⟩] },
          published := [] }).2.overflowQueueHandler.items = [⟨"A", "s1"⟩, ⟨"B", "s2"⟩] :=
  (C13_drain_cycle_failure (fun _ => .error (PlainError "Channel closed"))
    { sessionManager := SessionManager.new,
      overflowQueueHandler := { items := [⟨"A", "s1"⟩, ⟨"B", "s2"⟩] },
      published := [] } ⟨"A", "s1"⟩ [⟨"B", "s2"⟩] (by decide) rfl
    (Or.inr ⟨_, rfl⟩)).2

/-! ### C5, C11, C14: the coordinator with the handler of the sources -/

theorem WiredJobCoordinator.submitJobToBroker_at_capacity
    (send : Job → Except JsError Unit) (jc : WiredJobCoordinator) (text sessionId : String)
    (hfull : jc.sessionManager.hasCapacity = false) :
    WiredJobCoordinator.submitJobToBroker send jc text sessionId
      = (.ok { status := .queued,
               message := "Job added to the in-memory queue due to max active sessions limit." },
         { jc with overflowQueueHandler :=
             { tasks := jc.overflowQueueHandler.tasks
                 ++ [{ text := text, sessionId := sessionId }] } }) := by
  simp [WiredJobCoordinator.submitJobToBroker, OverflowQueueHandler.addToQueue, hfull]

theorem WiredJobCoordinator.submitAll_at_capacity (calls : List SubmitCall) :
    ∀ jc : WiredJobCoordinator, jc.sessionManager.hasCapacity = false →
      WiredJobCoordinator.submitAll jc calls
          = { jc with overflowQueueHandler :=
                { tasks := jc.overflowQueueHandler.tasks
                    ++ calls.map (fun c => { text := c.text, sessionId := c.sessionId }) } }
        ∧ WiredJobCoordinator.submitAllStatuses jc calls
          = calls.map (fun _ => some SubmitStatus.queued) := by
  induction calls with
  | nil =>
    intro jc _
    simp [WiredJobCoordinator.submitAll, WiredJobCoordinator.submitAllStatuses]
  | cons c cs ih =>
    intro jc hfull
    have hstep := WiredJobCoordinator.submitJobToBroker_at_capacity (fun _ => c.publish) jc
      c.text c.sessionId hfull
    have hrest := ih { jc with overflowQueueHandler :=
      { tasks := jc.overflowQueueHandler.tasks
          ++ [{ text := c.text, sessionId := c.sessionId }] } } hfull
    constructor
    · simp only [WiredJobCoordinator.submitAll, hstep, hrest.1]
      simp
    · simp only [WiredJobCoordinator.submitAllStatuses, hstep, hrest.2]
      simp

/-- C5, counterexample: three sessions active at ceiling 3 and the handler of
the sources with an empty queue. A is submitted and returns queued, the worker
of its task settles, then B and C are submitted and return queued. The queue
afterwards holds B, C and not A, B, C; when the workers of B and C have settled
too, getQueueLength is 0 although nothing was drained. -/
theorem C5_handler_queue_is_not_a_kept_list_counterexample :
    (WiredJobCoordinator.submitJobToBroker (fun _ => .ok ())
        { sessionManager := { MAX_ACTIVE_SESSIONS := 3, activeSessions := ["s1", "s2", "s3"],
                              overflowQueue := [] },
          overflowQueueHandler := { tasks := [] }, published := [] } "A" "s4").1
        = .ok { status := .queued,
                message :=
                  "Job added to the in-memory queue due to max active sessions limit." }
      ∧ WiredJobCoordinator.submitAllStatuses
          ((WiredJobCoordinator.submitJobToBroker (fun _ => .ok ())
            { sessionManager := { MAX_ACTIVE_SESSIONS := 3,
                                  activeSessions := ["s1", "s2", "s3"], overflowQueue := [] },
              overflowQueueHandler := { tasks := [] }, published := [] }
            "A" "s4").2.onTaskSettled ⟨"A", "s4"⟩)
          [⟨"B", "s5", .ok ()⟩, ⟨"C", "s6", .ok ()⟩]
        = [some .queued, some .queued]
      ∧ (WiredJobCoordinator.submitAll
          ((WiredJobCoordinator.submitJobToBroker (fun _ => .ok ())
            { sessionManager := { MAX_ACTIVE_SESSIONS := 3,
                                  activeSessions := ["s1", "s2", "s3"], overflowQueue := [] },
              overflowQueueHandler := { tasks := [] }, published := [] }
            "A" "s4").2.onTaskSettled ⟨"A", "s4"⟩)
          [⟨"B", "s5", .ok ()⟩, ⟨"C", "s6", .ok ()⟩]).overflowQueueHandler.tasks
        = [⟨"B", "s5"⟩, ⟨"C", "s6"⟩]
      ∧ (((WiredJobCoordinator.submitAll
          ((WiredJobCoordinator.submitJobToBroker (fun _ => .ok ())
            { sessionManager := { MAX_ACTIVE_SESSIONS := 3,
                                  activeSessions := ["s1", "s2", "s3"], overflowQueue := [] },
              overflowQueueHandler := { tasks := [] }, published := [] }
            "A" "s4").2.onTaskSettled ⟨"A", "s4"⟩)
          [⟨"B", "s5", .ok ()⟩, ⟨"C", "s6", .ok ()⟩]).onTaskSettled
            ⟨"B", "s5"⟩).onTaskSettled ⟨"C", "s6"⟩).overflowQueueHandler.getQueueLength
        = 0 := by
  decide

/-- C5, amended: with the handler of the sources as the overflow buffer, for
every list of submissions made while the gate has no capacity and no task
settling in between, every submitJobToBroker call returns status queued, the
session manager (so the active set) and the published payloads are unchanged,
and the queue of the handler afterwards holds the tasks it held before followed
by the submissions in the order submitted. A task leaves the queue when its
worker settles: getQueueLength is then one less. -/
theorem C5_submissions_reach_the_handler_in_order (jc : WiredJobCoordinator)
    (calls : List SubmitCall) (hfull : jc.sessionManager.hasCapacity = false) :
    WiredJobCoordinator.submitAllStatuses jc calls
        = calls.map (fun _ => some SubmitStatus.queued)
      ∧ (WiredJobCoordinator.submitAll jc calls).sessionManager = jc.sessionManager
      ∧ (WiredJobCoordinator.submitAll jc calls).published = jc.published
      ∧ (WiredJobCoordinator.submitAll jc calls).overflowQueueHandler.tasks
        = jc.overflowQueueHandler.tasks
            ++ calls.map (fun c => { text := c.text, sessionId := c.sessionId })
      ∧ (∀ item ∈ (WiredJobCoordinator.submitAll jc calls).overflowQueueHandler.tasks,
          ((WiredJobCoordinator.submitAll jc calls).onTaskSettled
              item).overflowQueueHandler.getQueueLength + 1
            = (WiredJobCoordinator.submitAll jc calls).overflowQueueHandler.getQueueLength) := by
  have h := WiredJobCoordinator.submitAll_at_capacity calls jc hfull
  refine ⟨h.2, ?_, ?_, ?_, ?_⟩
  · rw [h.1]
  · rw [h.1]
  · rw [h.1]
  · intro item hmem
    simp only [WiredJobCoordinator.onTaskSettled, OverflowQueueHandler.onTaskSettled,
      OverflowQueueHandler.getQueueLength]
    rw [List.length_erase_of_mem hmem]
    have hpos : 0 < (WiredJobCoordinator.submitAll jc calls).overflowQueueHandler.tasks.length :=
      List.length_pos_of_mem hmem
    omega

/-- C5, amended, at a concrete state: three sessions active at ceiling 3 and an
empty queue; A, B and C submitted with no task settling give the queue A, B,
C. -/
theorem C5_submissions_reach_the_handler_in_order_witness :
    (WiredJobCoordinator.submitAll
        { sessionManager := { MAX_ACTIVE_SESSIONS := 3, activeSessions := ["s1", "s2", "s3"],
                              overflowQueue := [] },
          overflowQueueHandler := { tasks := [] }, published := [] }
        [{ text := "A", sessionId := "s4", publish := .ok () },
         { text := "B", sessionId := "s5", publish := .error (PlainError "Channel closed") },
         { text := "C", sessionId := "s4", publish := .ok () }]).overflowQueueHandler.tasks
      = [{ text := "A", sessionId := "s4" }, { text := "B", sessionId := "s5" },
         { text := "C", sessionId := "s4" }] :=
  (C5_submissions_reach_the_handler_in_order
    { sessionManager := { MAX_ACTIVE_SESSIONS := 3, activeSessions := ["s1", "s2", "s3"],
                          overflowQueue := [] },
      overflowQueueHandler := { tasks := [] }, published := [] }
    [{ text := "A", sessionId := "s4", publish := .ok () },
     { text := "B", sessionId := "s5", publish := .error (PlainError "Channel closed") },
     { text := "C", sessionId := "s4", publish := .ok () }]
    (by decide)).2.2.2.1

/-- C11: with the handler of the sources, every call of submitJobToBroker ends
in exactly one of three outcomes. It returns status submitted and the payload
has been appended to the published payloads (queue of the handler unchanged);
or it returns status queued and the submission has been given to the queue of
the handler (gate and published payloads unchanged); or it throws a
JobSubmissionError with queue and published payloads unchanged. The three
results differ, so no two outcomes hold together, and no normal return leaves
the submission neither published nor in the queue. -/
theorem C11_submission_outcomes (send : Job → Except JsError Unit)
    (jc : WiredJobCoordinator) (text sessionId : String) :
    ((WiredJobCoordinator.submitJobToBroker send jc text sessionId).1
          = .ok { status := .submitted,
                  message := "Job successfully submitted to the broker." }
        ∧ (WiredJobCoordinator.submitJobToBroker send jc text sessionId).2.published
          = jc.published ++ [{ text := text, sessionId := sessionId }]
        ∧ (WiredJobCoordinator.submitJobToBroker send jc text sessionId).2.overflowQueueHandler
          = jc.overflowQueueHandler)
      ∨ ((WiredJobCoordinator.submitJobToBroker send jc text sessionId).1
          = .ok { status := .queued,
                  message :=
                    "Job added to the in-memory queue due to max active sessions limit." }
        ∧ (WiredJobCoordinator.submitJobToBroker send jc text
            sessionId).2.overflowQueueHandler.tasks
          = jc.overflowQueueHandler.tasks ++ [{ text := text, sessionId := sessionId }]
        ∧ (WiredJobCoordinator.submitJobToBroker send jc text sessionId).2.published
          = jc.published
        ∧ (WiredJobCoordinator.submitJobToBroker send jc text sessionId).2.sessionManager
          = jc.sessionManager)
      ∨ ((WiredJobCoordinator.submitJobToBroker send jc text sessionId).1
          = .error (JobSubmissionError "Failed to submit the job to the broker.")
        ∧ (WiredJobCoordinator.submitJobToBroker send jc text sessionId).2.published
          = jc.published
        ∧ (WiredJobCoordinator.submitJobToBroker send jc text sessionId).2.overflowQueueHandler
          = jc.overflowQueueHandler) := by
  by_cases hcap : jc.sessionManager.hasCapacity = true
  · by_cases hid : sessionId = ""
    · right; right
      simp [WiredJobCoordinator.submitJobToBroker, SessionManager.addSession, hcap, hid]
    · cases hsend : send { text := text, sessionId := sessionId } with
      | error e =>
        right; right
        simp [WiredJobCoordinator.submitJobToBroker, SessionManager.addSession, hcap, hid,
          hsend]
      | ok u =>
        left
        simp [WiredJobCoordinator.submitJobToBroker, SessionManager.addSession, hcap, hid,
          hsend]
  · have hfull : jc.sessionManager.hasCapacity = false := by simpa using hcap
    right; left
    rw [WiredJobCoordinator.submitJobToBroker_at_capacity send jc text sessionId hfull]
    simp

/-- C14: the code evaluated on the scenario, with the handler of the sources and
every publish succeeding. s1, s2, s3 return submitted, s4 returns queued and
getQueueLength is 1, removeSession(s1) returns. Then the drain cycle fails with
a TypeError because the handler has no peek: s4 is not published and
activeSessionCount is 2. When the worker of the task of s4 has settled before
the cycle, getQueueLength is 0 and the cycle does nothing: again s4 is not
published and activeSessionCount is 2. -/
theorem C14_end_to_end_drain_fails :
    WiredJobCoordinator.submitAllStatuses WiredJobCoordinator.new
        [⟨"t1", "s1", .ok ()⟩, ⟨"t2", "s2", .ok ()⟩, ⟨"t3", "s3", .ok ()⟩,
         ⟨"t4", "s4", .ok ()⟩]
        = [some .submitted, some .submitted, some .submitted, some .queued]
      ∧ (WiredJobCoordinator.submitAll WiredJobCoordinator.new
          [⟨"t1", "s1", .ok ()⟩, ⟨"t2", "s2", .ok ()⟩, ⟨"t3", "s3", .ok ()⟩,
           ⟨"t4", "s4", .ok ()⟩]).overflowQueueHandler.getQueueLength = 1
      ∧ ((WiredJobCoordinator.submitAll WiredJobCoordinator.new
          [⟨"t1", "s1", .ok ()⟩, ⟨"t2", "s2", .ok ()⟩, ⟨"t3", "s3", .ok ()⟩,
           ⟨"t4", "s4", .ok ()⟩]).removeSession "s1").1 = .ok ()
      ∧ WiredJobCoordinator.processOverflowQueue (fun _ => .ok ())
          ((WiredJobCoordinator.submitAll WiredJobCoordinator.new
            [⟨"t1", "s1", .ok ()⟩, ⟨"t2", "s2", .ok ()⟩, ⟨"t3", "s3", .ok ()⟩,
             ⟨"t4", "s4", .ok ()⟩]).removeSession "s1").2
        = (.error (TypeError "this.overflowQueueHandler.peek is not a function"),
           { sessionManager := { MAX_ACTIVE_SESSIONS := 3, activeSessions := ["s2", "s3"],
                                 overflowQueue := [] },
             overflowQueueHandler := { tasks := [⟨"t4", "s4"⟩] },
             published := [⟨"t1", "s1"⟩, ⟨"t2", "s2"⟩, ⟨"t3", "s3"⟩] })
      ∧ WiredJobCoordinator.processOverflowQueue (fun _ => .ok ())
          (((WiredJobCoordinator.submitAll WiredJobCoordinator.new
            [⟨"t1", "s1", .ok ()⟩, ⟨"t2", "s2", .ok ()⟩, ⟨"t3", "s3", .ok ()⟩,
             ⟨"t4", "s4", .ok ()⟩]).removeSession "s1").2.onTaskSettled ⟨"t4", "s4"⟩)
        = (.ok (),
           { sessionManager := { MAX_ACTIVE_SESSIONS := 3, activeSessions := ["s2", "s3"],
                                 overflowQueue := [] },
             overflowQueueHandler := { tasks := [] },
             published := [⟨"t1", "s1"⟩, ⟨"t2", "s2"⟩, ⟨"t3", "s3"⟩] })
      ∧ (WiredJobCoordinator.processOverflowQueue (fun _ => .ok ())
          ((WiredJobCoordinator.submitAll WiredJobCoordinator.new
            [⟨"t1", "s1", .ok ()⟩, ⟨"t2", "s2", .ok ()⟩, ⟨"t3", "s3", .ok ()⟩,
             ⟨"t4", "s4", .ok ()⟩]).removeSession
              "s1").2).2.sessionManager.activeSessionCount = 2 := by
  decide

/-! ### C15: close events and reconnect chains -/

theorem ReconnectChain.runAlone_start (init : Nat → AttemptOutcome) :
    (ReconnectChain.runAlone init 10 ReconnectChain.start).toRun
      = some (LavinMQClient.reconnect init) := by
  cases h1 : init 1 with
  | resolved =>
    simp [ReconnectChain.runAlone, ReconnectChain.start, ReconnectChain.onAttemptSettled,
      ReconnectChain.onTimer, ReconnectChain.toRun, LavinMQClient.reconnect,
      LavinMQClient.reconnectLoop, h1]
  | rejected e1 =>
    cases h2 : init 2 with
    | resolved =>
      simp [ReconnectChain.runAlone, ReconnectChain.start, ReconnectChain.onAttemptSettled,
        ReconnectChain.onTimer, ReconnectChain.toRun, LavinMQClient.reconnect,
        LavinMQClient.reconnectLoop, h1, h2]
    | rejected e2 =>
      cases h3 : init 3 with
      | resolved =>
        simp [ReconnectChain.runAlone, ReconnectChain.start, ReconnectChain.onAttemptSettled,
          ReconnectChain.onTimer, ReconnectChain.toRun, LavinMQClient.reconnect,
          LavinMQClient.reconnectLoop, h1, h2, h3]
      | rejected e3 =>
        cases h4 : init 4 with
        | resolved =>
          simp [ReconnectChain.runAlone, ReconnectChain.start, ReconnectChain.onAttemptSettled,
            ReconnectChain.onTimer, ReconnectChain.toRun, LavinMQClient.reconnect,
            LavinMQClient.reconnectLoop, h1, h2, h3, h4]
        | rejected e4 =>
          cases h5 : init 5 with
          | resolved =>
            simp [ReconnectChain.runAlone, ReconnectChain.start,
              ReconnectChain.onAttemptSettled, ReconnectChain.onTimer, ReconnectChain.toRun,
              LavinMQClient.reconnect, LavinMQClient.reconnectLoop, h1, h2, h3, h4, h5]
          | rejected e5 =>
            simp [ReconnectChain.runAlone, ReconnectChain.start,
              ReconnectChain.onAttemptSettled, ReconnectChain.onTimer, ReconnectChain.toRun,
              LavinMQClient.reconnect, LavinMQClient.reconnectLoop, h1, h2, h3, h4, h5]

theorem ClientRuntime.updateChain_other (f : ReconnectChain → ReconnectChain) :
    ∀ (chains : List ReconnectChain) (i j : Nat), i ≠ j →
      (ClientRuntime.updateChain chains i f)[j]? = chains[j]? := by
  intro chains
  induction chains with
  | nil => intro i j _; simp [ClientRuntime.updateChain]
  | cons c cs ih =>
    intro i j hij
    cases i with
    | zero =>
      cases j with
      | zero => exact absurd rfl hij
      | succ j => simp [ClientRuntime.updateChain]
    | succ i =>
      cases j with
      | zero => simp [ClientRuntime.updateChain]
      | succ j =>
        simp only [ClientRuntime.updateChain, List.getElem?_cons_succ]
        exact ih i j (fun h => hij (by rw [h]))

theorem ClientRuntime.onCloseRepeated_chains (n : Nat) :
    ∀ rt : ClientRuntime,
      (rt.onCloseRepeated n).chains = rt.chains ++ List.replicate n ReconnectChain.start := by
  induction n with
  | zero => intro rt; simp [ClientRuntime.onCloseRepeated]
  | succ n ih =>
    intro rt
    simp only [ClientRuntime.onCloseRepeated]
    rw [ih rt.onClose]
    simp [ClientRuntime.onClose, List.replicate_succ]

/-- C15, counterexample: a client connected on connection 7 and channel 9 gets
the close event of the connection, and while the reconnect it starts awaits its
first attempt, the close event of the channel. Two calls of reconnect are then
in progress, each with the full budget and a connection attempt of its own;
when both attempts fail, both chains sleep 4000 ms on timers of their own. -/
theorem C15_second_close_starts_second_chain_counterexample :
    (ClientRuntime.onClose
        { client := (LavinMQClient.new.initializeClient (.opened 7 9)).2, chains := [] }).chains
        = [{ retries := 5, delay := 2000, status := .connecting, attempts := 1, sleeps := [] }]
      ∧ (ClientRuntime.onClose (ClientRuntime.onClose
          { client := (LavinMQClient.new.initializeClient (.opened 7 9)).2,
            chains := [] })).chains
        = [{ retries := 5, delay := 2000, status := .connecting, attempts := 1, sleeps := [] },
           { retries := 5, delay := 2000, status := .connecting, attempts := 1, sleeps := [] }]
      ∧ (ClientRuntime.onAttemptSettled (ClientRuntime.onAttemptSettled
          (ClientRuntime.onClose (ClientRuntime.onClose
            { client := (LavinMQClient.new.initializeClient (.opened 7 9)).2,
              chains := [] }))
          0 (.connectError (PlainError "connect ECONNREFUSED")))
          1 (.connectError (PlainError "connect ECONNREFUSED"))).chains
        = [{ retries := 4, delay := 4000, status := .sleeping, attempts := 1,
             sleeps := [4000] },
           { retries := 4, delay := 4000, status := .sleeping, attempts := 1,
             sleeps := [4000] }] := by
  decide

/-- C15, amended: the close listeners have no guard. Every close event, of the
connection or of the channel, calls reconnect, also while other calls of
reconnect are in progress: the calls in progress stay as they are and one more
is started, with retries 5, delay 2000 and a connection attempt of its own, so
n close events start n chains. A chain does what reconnect does on the outcomes
of its own attempts, and an attempt that settles or a timer that fires for one
chain leaves every other chain as it is. -/
theorem C15_every_close_starts_a_chain (rt : ClientRuntime) :
    rt.onClose.chains
        = rt.chains
            ++ [{ retries := 5, delay := 2000, status := .connecting, attempts := 1,
                  sleeps := [] }]
      ∧ (∀ n, (rt.onCloseRepeated n).chains
          = rt.chains ++ List.replicate n ReconnectChain.start)
      ∧ (∀ init : Nat → AttemptOutcome,
          (ReconnectChain.runAlone init 10 ReconnectChain.start).toRun
            = some (LavinMQClient.reconnect init))
      ∧ (∀ (i j : Nat) (o : ConnectOutcome), i ≠ j →
          (rt.onAttemptSettled i o).chains[j]? = rt.chains[j]?)
      ∧ (∀ i j : Nat, i ≠ j → (rt.onTimer i).chains[j]? = rt.chains[j]?) := by
  refine ⟨rfl, fun n => ClientRuntime.onCloseRepeated_chains n rt,
    ReconnectChain.runAlone_start, ?_, ?_⟩
  · intro i j o hij
    unfold ClientRuntime.onAttemptSettled
    cases hc : rt.chains[i]? with
    | none => rfl
    | some chain =>
      by_cases hs : chain.status = .connecting
      · simp only [hs, if_true]
        exact ClientRuntime.updateChain_other _ rt.chains i j hij
      · simp only [hs, if_false]
  · intro i j hij
    exact ClientRuntime.updateChain_other _ rt.chains i j hij

/-- C15, amended, at a concrete state: two chains in progress after two close
events; the attempt of the first chain fails, and the second chain is still as
it was started. -/
theorem C15_every_close_starts_a_chain_witness :
    (ClientRuntime.onAttemptSettled
        (ClientRuntime.onClose (ClientRuntime.onClose
          { client := (LavinMQClient.new.initializeClient (.opened 7 9)).2, chains := [] }))
        0 (.connectError (PlainError "connect ECONNREFUSED"))).chains[1]?
      = (ClientRuntime.onClose (ClientRuntime.onClose
          { client := (LavinMQClient.new.initializeClient (.opened 7 9)).2,
            chains := [] })).chains[1]? :=
  (C15_every_close_starts_a_chain
    (ClientRuntime.onClose (ClientRuntime.onClose
      { client := (LavinMQClient.new.initializeClient (.opened 7 9)).2,
        chains := [] }))).2.2.2.1 0 1 (.connectError (PlainError "connect ECONNREFUSED"))
    (by decide)

/-! ### C16, C17: credits -/

/-- C16: the code evaluated where the amount equals the fetched balance. With a
stored balance of 7 and amount 7 the fetched balance is 7, which is at least
the amount, yet deductUserCredits does not return true: the write of the new
balance 0 is rejected by validateInputs, the call fails with a DatabaseError,
and the stored row still holds 7 instead of 0. -/
theorem C16_deduct_whole_balance_throws :
    (CreditManager.new CreditManagerConfig.empty).fetchedBalance
        { rows := [("u1", ⟨7, .text "t0"⟩)], writes := [] } "u1" = 7
      ∧ (CreditManager.new CreditManagerConfig.empty).deductUserCredits
          { rows := [("u1", ⟨7, .text "t0"⟩)], writes := [] } "u1" (some 7) 1700000000000
        = (.error (DatabaseError "Invalid credits value: 0"),
           { rows := [("u1", ⟨7, .text "t0"⟩)], writes := [] }) := by
  decide

/-- C17: the code evaluated for a user whose stored balance is 0 (u1) and for a
user with no row (u2), default config. In both cases fetchUserCredits builds the
record with 500 credits and a Date in lastUpdated and passes it to
updateUserCredits, where the driver refuses to bind the Date: the call fails
with a TypeError, nothing is written and no record with 500 credits is
returned. -/
theorem C17_fetch_start_credits_write_throws :
    (CreditManager.new CreditManagerConfig.empty).fetchUserCredits
        { rows := [("u1", ⟨0, .text "t0"⟩)], writes := [] } "u1" 1700000000000
        = (.error (TypeError
            "SQLite3 can only bind numbers, strings, bigints, buffers, and null"),
           { rows := [("u1", ⟨0, .text "t0"⟩)], writes := [] })
      ∧ (CreditManager.new CreditManagerConfig.empty).fetchUserCredits
          { rows := [("u1", ⟨0, .text "t0"⟩)], writes := [] } "u2" 1700000000000
        = (.error (TypeError
            "SQLite3 can only bind numbers, strings, bigints, buffers, and null"),
           { rows := [("u1", ⟨0, .text "t0"⟩)], writes := [] }) := by
  decide

end WildJungle
